import Mathlib

/-!
Verification of the resume-parser service against its specification.

Shallow embedding of the jobstack-managed-parser repository (Python) in Lean 4.
Each section below embeds one source module; the theorems at the end settle
the frozen claims about the specification.

Conventions of the embedding:
* Python byte strings are `List Nat` (each element a byte value).
* Python `time.time()` is an explicit `now : Nat` parameter (seconds); float
  durations and money amounts are `ℚ`.
* Python dictionaries with a fixed key set are structures; keys that may be
  absent are `Option` fields.
* The module-level mutable store `_cache_store` is threaded explicitly; the
  environment (`os.getenv`) is a function `String → Option String`.
* External network calls (AWS Textract, Gemini) are oracle parameters giving
  the call's outcome (`Except` for calls that may raise).
-/

/- ## Python string/byte helpers -/

/-- Model of `str.lower()`, restricted to character-wise lowering (the filenames and
extensions handled by the service are ASCII). -/
def pyLower (s : String) : String := String.mk (s.data.map Char.toLower)

/-- Model of `s.split('.')[-1]` as a character-list function: the suffix after the last
dot (the whole list when no dot occurs). -/
def lastSegment (cs : List Char) : List Char :=
  cs.foldl (fun acc c => if c = '.' then [] else acc ++ [c]) []

/-- The idiom `filename.split('.')[-1].lower() if '.' in filename else dflt`
(equivalently `filename.lower().split('.')[-1]`, since lowering is
character-wise and fixes `'.'`). The modules differ only in `dflt`
(`'unknown'` in `result_cache.py`/`resume_processor.py`, `''` in
`text_extractor.py`/`app.py`). -/
def fileExtOr (filename : String) (dflt : String) : String :=
  if filename.data.contains '.' then pyLower (String.mk (lastSegment filename.data))
  else dflt

/-- Model of `str.encode('utf-8')` for one character. -/
def utf8EncodeCharNat (c : Char) : List Nat :=
  let n := c.toNat
  if n < 128 then [n]
  else if n < 2048 then [192 + n / 64, 128 + n % 64]
  else if n < 65536 then [224 + n / 4096, 128 + n / 64 % 64, 128 + n % 64]
  else [240 + n / 262144, 128 + n / 4096 % 64, 128 + n / 64 % 64, 128 + n % 64]

/-- Model of `str.encode('utf-8')` as a byte list. -/
def utf8Bytes (s : String) : List Nat := s.data.flatMap utf8EncodeCharNat

/-- Model of `str.strip()`: drop whitespace from both ends. -/
def pyStrip (s : String) : String :=
  String.mk
    (((s.data.dropWhile Char.isWhitespace).reverse.dropWhile
        Char.isWhitespace).reverse)

/-- Python `round(x, ndigits)`: round half to even at the given number of
decimal digits, modelled on exact rationals. -/
def pyRound (ndigits : Nat) (x : ℚ) : ℚ :=
  let m : ℚ := (10 : ℚ) ^ ndigits
  let y := x * m
  let fl : ℤ := ⌊y⌋
  let frac : ℚ := y - fl
  let n : ℤ :=
    if frac < 1/2 then fl
    else if 1/2 < frac then fl + 1
    else if fl % 2 = 0 then fl else fl + 1
  (n : ℚ) / m

/- ## SHA-256 (`hashlib.sha256`), big-endian, over byte lists -/

/-- Truncate to a 32-bit word. -/
def w32 (n : Nat) : Nat := n % 4294967296

/-- Right rotation of a 32-bit word (argument assumed `< 2^32`). -/
def rotr32 (n x : Nat) : Nat := x / 2 ^ n + x % 2 ^ n * 2 ^ (32 - n)

/-- Bitwise complement of a 32-bit word. -/
def not32 (x : Nat) : Nat := 4294967295 - x

/-- The eight initial hash words of SHA-256 (decimal). -/
def sha256Init : List Nat :=
  [1779033703, 3144134277, 1013904242, 2773480762,
   1359893119, 2600822924, 528734635, 1541459225]

/-- The 64 round constants of SHA-256 (decimal). -/
def sha256K : List Nat :=
  [1116352408, 1899447441, 3049323471, 3921009573, 961987163,
   1508970993, 2453635748, 2870763221, 3624381080, 310598401,
   607225278, 1426881987, 1925078388, 2162078206, 2614888103,
   3248222580, 3835390401, 4022224774, 264347078, 604807628,
   770255983, 1249150122, 1555081692, 1996064986, 2554220882,
   2821834349, 2952996808, 3210313671, 3336571891, 3584528711,
   113926993, 338241895, 666307205, 773529912, 1294757372,
   1396182291, 1695183700, 1986661051, 2177026350, 2456956037,
   2730485921, 2820302411, 3259730800, 3345764771, 3516065817,
   3600352804, 4094571909, 275423344, 430227734, 506948616,
   659060556, 883997877, 958139571, 1322822218, 1537002063,
   1747873779, 1955562222, 2024104815, 2227730452, 2361852424,
   2428436474, 2756734187, 3204031479, 3329325298]

/-- Big-endian bytes of the 64-bit message length. -/
def lenBytes64 (n : Nat) : List Nat :=
  [n / 2 ^ 56 % 256, n / 2 ^ 48 % 256, n / 2 ^ 40 % 256, n / 2 ^ 32 % 256,
   n / 2 ^ 24 % 256, n / 2 ^ 16 % 256, n / 2 ^ 8 % 256, n % 256]

/-- SHA-256 padding: `0x80`, zeros to 56 mod 64, then the bit length. -/
def sha256Pad (msg : List Nat) : List Nat :=
  let len := msg.length
  let z := (55 + 64 - len % 64) % 64
  msg ++ [128] ++ List.replicate z 0 ++ lenBytes64 (len * 8)

/-- Group big-endian bytes into 32-bit words. -/
def bytesToWords : List Nat → List Nat
  | b0 :: b1 :: b2 :: b3 :: rest =>
      (b0 * 16777216 + b1 * 65536 + b2 * 256 + b3) :: bytesToWords rest
  | _ => []

/-- Split a byte list into 64-byte blocks (fuel-driven; fuel bounds the
number of blocks). -/
def toBlocksAux : Nat → List Nat → List (List Nat)
  | 0, _ => []
  | _, [] => []
  | fuel + 1, l => l.take 64 :: toBlocksAux fuel (l.drop 64)

def toBlocks (l : List Nat) : List (List Nat) := toBlocksAux l.length l

/-- Extend the 16-word schedule by `k` further words. -/
def extendW (ws : List Nat) : Nat → List Nat
  | 0 => ws
  | k + 1 =>
    let i := ws.length
    let w15 := ws.getD (i - 15) 0
    let w2 := ws.getD (i - 2) 0
    let w16 := ws.getD (i - 16) 0
    let w7 := ws.getD (i - 7) 0
    let s0 := rotr32 7 w15 ^^^ rotr32 18 w15 ^^^ (w15 >>> 3)
    let s1 := rotr32 17 w2 ^^^ rotr32 19 w2 ^^^ (w2 >>> 10)
    extendW (ws ++ [w32 (w16 + s0 + w7 + s1)]) k

/-- One compression round. -/
def sha256Round (st : Nat × Nat × Nat × Nat × Nat × Nat × Nat × Nat)
    (wk : Nat × Nat) : Nat × Nat × Nat × Nat × Nat × Nat × Nat × Nat :=
  let (a, b, c, d, e, f, g, hh) := st
  let (wi, ki) := wk
  let s1 := rotr32 6 e ^^^ rotr32 11 e ^^^ rotr32 25 e
  let ch := (e &&& f) ^^^ (not32 e &&& g)
  let temp1 := w32 (hh + s1 + ch + ki + wi)
  let s0 := rotr32 2 a ^^^ rotr32 13 a ^^^ rotr32 22 a
  let maj := (a &&& b) ^^^ (a &&& c) ^^^ (b &&& c)
  let temp2 := w32 (s0 + maj)
  (w32 (temp1 + temp2), a, b, c, w32 (d + temp1), e, f, g)

/-- Compress one block into the hash state. -/
def sha256Compress (h : List Nat) (block : List Nat) : List Nat :=
  let ws := extendW (bytesToWords block) 48
  let init := (h.getD 0 0, h.getD 1 0, h.getD 2 0, h.getD 3 0,
               h.getD 4 0, h.getD 5 0, h.getD 6 0, h.getD 7 0)
  let (a, b, c, d, e, f, g, hh) := (ws.zip sha256K).foldl sha256Round init
  [w32 (h.getD 0 0 + a), w32 (h.getD 1 0 + b), w32 (h.getD 2 0 + c),
   w32 (h.getD 3 0 + d), w32 (h.getD 4 0 + e), w32 (h.getD 5 0 + f),
   w32 (h.getD 6 0 + g), w32 (h.getD 7 0 + hh)]

/-- The eight 32-bit words of the SHA-256 digest of a byte list. -/
def sha256Words (msg : List Nat) : List Nat :=
  (toBlocks (sha256Pad msg)).foldl sha256Compress sha256Init

/-- One lowercase hex digit. -/
def hexDigit (n : Nat) : Char :=
  if n < 10 then Char.ofNat (48 + n) else Char.ofNat (87 + n)

/-- Eight hex digits of a 32-bit word, big-endian. -/
def word8Hex (w : Nat) : List Char :=
  [hexDigit (w / 16 ^ 7 % 16), hexDigit (w / 16 ^ 6 % 16),
   hexDigit (w / 16 ^ 5 % 16), hexDigit (w / 16 ^ 4 % 16),
   hexDigit (w / 16 ^ 3 % 16), hexDigit (w / 16 ^ 2 % 16),
   hexDigit (w / 16 % 16), hexDigit (w % 16)]

/-- Model of `hashlib.sha256(msg).hexdigest()`. -/
def sha256hex (msg : List Nat) : String :=
  String.mk ((sha256Words msg).flatMap word8Hex)

/- ## `src/parsers/text_extractor.py` -/

/--
Model of `get_extraction_method(filename, file_size)` — smart routing based on file
type and size (`text_extractor.py`, lines 67–96). The extension is
`filename.lower().split('.')[-1] if '.' in filename else ''`.
-/
def get_extraction_method (filename : String) (file_size : Nat) : String :=
  let ext := fileExtOr filename ""
  if ext ∈ ["jpg", "jpeg", "png", "tiff", "bmp"] then "aws_textract"
  else if ext = "pdf" then
    if file_size > 5000000 then "aws_textract" else "pymupdf"
  else if ext ∈ ["doc", "docx"] then "python_docx"
  else if ext ∈ ["txt", "rtf"] then "direct_read"
  else "aws_textract"

/--
The routing table as the specification words it: cloud OCR for image
extensions, cloud OCR for large PDFs, local PDF extraction for small PDFs,
local Word extraction for Word documents, direct decode for plain text, and
cloud OCR for every other extension (including no extension at all). Stated
independently of the source's `if`-chain, over the same extension function.
-/
def spec_extraction_routing (filename : String) (file_size : Nat) : String :=
  let ext := fileExtOr filename ""
  if ext = "jpg" ∨ ext = "jpeg" ∨ ext = "png" ∨ ext = "tiff" ∨ ext = "bmp" then
    "aws_textract"
  else if ext = "pdf" ∧ file_size > 5000000 then "aws_textract"
  else if ext = "pdf" ∧ file_size ≤ 5000000 then "pymupdf"
  else if ext = "doc" ∨ ext = "docx" then "python_docx"
  else if ext = "txt" ∨ ext = "rtf" then "direct_read"
  else "aws_textract"

/- ## `src/parsers/result_cache.py` — cache key -/

/--
Model of `get_cache_key(file_content, filename)` (`result_cache.py`, lines 48–58):
the full SHA-256 hex digest of the content is computed and truncated to its
first 16 characters; the extension component defaults to `'unknown'`.
-/
def get_cache_key (file_content : List Nat) (filename : String) : String :=
  let content_hash := sha256hex file_content
  let file_ext := fileExtOr filename "unknown"
  "resume_result:" ++ file_ext ++ ":" ++ (content_hash.take 16)

/-- The extension as the specification words it: the lowercased characters
after the *last* dot of the filename, or `"unknown"` when the filename has
no dot — computed here by reading the filename back to front. -/
def spec_extension (filename : String) : String :=
  if filename.data.contains '.' then
    pyLower (String.mk ((filename.data.reverse.takeWhile (· ≠ '.')).reverse))
  else "unknown"

/-- The cache key as the specification words it. -/
def spec_cache_key (file_content : List Nat) (filename : String) : String :=
  "resume_result:" ++ spec_extension filename ++ ":"
    ++ (sha256hex file_content).take 16

/-- The last `'.'`-separated segment is the reversed longest dot-free suffix. -/
theorem lastSegment_eq_revTakeWhile (cs : List Char) :
    lastSegment cs = (cs.reverse.takeWhile (· ≠ '.')).reverse := by
  induction cs using List.reverseRecOn with
  | nil => rfl
  | append_singleton as c ih =>
    by_cases hc : c = '.'
    · subst hc
      simp [lastSegment, List.foldl_append]
    · simp only [lastSegment, List.foldl_append, List.foldl_cons, List.foldl_nil,
        if_neg hc, List.reverse_append, List.reverse_cons, List.reverse_nil,
        List.nil_append, List.cons_append, List.takeWhile_cons]
      simp only [decide_eq_true_eq]
      rw [if_pos hc]
      simp only [List.reverse_cons]
      rw [← ih]
      rfl

/- The claim theorems for routing and cache keys (C3, C4) are stated at the
end of the file together with the other claims; the next sections continue
the embedding. -/

/- ## `src/parsers/token_utils.py` — `calculate_cost` -/

/-- The dictionary returned by `calculate_cost`. -/
structure CostDetails where
  input_tokens : Nat
  output_tokens : Nat
  total_tokens : Nat
  input_cost_usd : ℚ
  output_cost_usd : ℚ
  total_cost_usd : ℚ
  input_cost_inr : ℚ
  output_cost_inr : ℚ
  total_cost_inr : ℚ
  cached : Bool
  savings_percentage : Nat
  deriving Repr, DecidableEq

/--
Model of `calculate_cost(input_tokens, output_tokens, cached)` (`token_utils.py`,
lines 108–154). Monetary arithmetic is modelled on exact rationals; the
decimal literals below are exact. A pure function (no state parameter). -/
def calculate_cost (input_tokens output_tokens : Nat) (cached : Bool) :
    CostDetails :=
  let input_price_per_million : ℚ := if cached then 0.25 * 0.11 else 0.25
  let output_price_per_million : ℚ := 0.75
  let input_cost := ((input_tokens : ℚ) / 1000000) * input_price_per_million
  let output_cost := ((output_tokens : ℚ) / 1000000) * output_price_per_million
  let total_cost := input_cost + output_cost
  let usdToInr : ℚ := 83.0
  { input_tokens := input_tokens
    output_tokens := output_tokens
    total_tokens := input_tokens + output_tokens
    input_cost_usd := pyRound 6 input_cost
    output_cost_usd := pyRound 6 output_cost
    total_cost_usd := pyRound 6 total_cost
    input_cost_inr := pyRound 6 (input_cost * usdToInr)
    output_cost_inr := pyRound 6 (output_cost * usdToInr)
    total_cost_inr := pyRound 6 (total_cost * usdToInr)
    cached := cached
    savings_percentage := if cached then 89 else 0 }

/- ## `src/auth/token_service.py` -/

/-- A Python value as far as the token code inspects one: enough to carry
the truthiness distinctions the code makes. -/
inductive PyVal where
  | nonePy : PyVal
  | str (s : String) : PyVal
  | int (n : ℤ) : PyVal
  | bool (b : Bool) : PyVal
  deriving Repr, DecidableEq

/-- Python truthiness for the values above. -/
def PyVal.truthy : PyVal → Bool
  | .nonePy => false
  | .str s => s ≠ ""
  | .int n => n ≠ 0
  | .bool b => b

/-- A decoded JWT payload: a Python dict. -/
abbrev Claims := List (String × PyVal)

/-- Model of `dict.get(key)` with Python's `None` default. -/
def dictGet (d : List (String × PyVal)) (k : String) : PyVal :=
  match d.find? (·.1 = k) with
  | some kv => kv.2
  | none => .nonePy

/-- The outcome of the external `jwt.decode(...)` call: success, an
`ExpiredSignatureError`, or an `InvalidTokenError` (oracle parameter). -/
inductive JwtOutcome where
  | ok (claims : List (String × PyVal)) : JwtOutcome
  | expired : JwtOutcome
  | invalid (msg : String) : JwtOutcome
  deriving Repr, DecidableEq

/-- The exceptions that can leave the `try` body of `verify_token`. -/
inductive PyExc where
  | plain (msg : String) : PyExc
  | expiredSig : PyExc
  | invalidToken (msg : String) : PyExc
  deriving Repr, DecidableEq

/--
The `try` body of `verify_token` (`token_service.py`, lines 24–44): a missing
or empty `JWT_SECRET_KEY` raises a plain `Exception` with the documented
message; otherwise the decode outcome is propagated. (Python's
`if not secret_key` also treats the empty string as missing.) -/
def verify_token_body (env : String → Option String) (decodeResult : JwtOutcome) :
    Except PyExc (List (String × PyVal)) :=
  match env "JWT_SECRET_KEY" with
  | none => .error (.plain "JWT_SECRET_KEY environment variable is required")
  | some s =>
    if s = "" then .error (.plain "JWT_SECRET_KEY environment variable is required")
    else
      match decodeResult with
      | .ok c => .ok c
      | .expired => .error .expiredSig
      | .invalid m => .error (.invalidToken m)

/--
Model of `verify_token` (`token_service.py`, lines 24–54): the `except` ladder.
`jwt.ExpiredSignatureError` and `jwt.InvalidTokenError` are re-raised with
their specific messages; *every other* exception raised inside the `try` —
including the module's own missing-secret `Exception` — is caught by the
final `except Exception` and re-raised wrapped as
`"Token verification failed: …"`. -/
def verify_token (env : String → Option String) (decodeResult : JwtOutcome) :
    Except String (List (String × PyVal)) :=
  match verify_token_body env decodeResult with
  | .ok c => .ok c
  | .error .expiredSig => .error "Token has expired"
  | .error (.invalidToken m) => .error ("Invalid token: " ++ m)
  | .error (.plain m) => .error ("Token verification failed: " ++ m)

/--
Model of `get_auth_user_id(decoded_token)` (`token_service.py`, lines 57–73):
`decoded_token.get("userId")` followed by Python's `if not user_id` check,
so any falsy value — absence, `None`, the empty string, `0`, `False` — is
rejected. -/
def get_auth_user_id (decoded_token : List (String × PyVal)) :
    Except String PyVal :=
  let user_id := dictGet decoded_token "userId"
  if user_id.truthy then .ok user_id
  else .error "User ID not found in token"

/- ## Processing envelopes (shapes shared by `resume_processor.py` and the
result cache). Constant presentational fields of the empty skeleton
(`detectedSections`, `atsKeywords`, `stats`, …) carry no behavior and are
elided; every field the code reads or writes is modelled. -/

/-- One entry of `parseMetadata["warnings"]`. `section` is a Lean keyword,
so that key is modelled by the field `sectionName`. -/
structure WarningInfo where
  type : String
  message : String
  sectionName : String
  field : String
  severity : String
  deriving Repr, DecidableEq

/-- The dict `parseMetadata["processing_status"]`. Keys that some writers omit are
modelled with neutral defaults (`cache_hit` is only ever added by a cache
hit, `retry_*` only by the error path). -/
structure ProcessingStatus where
  status : String
  error_type : Option String
  can_retry : Bool
  cached : Bool
  cache_hit : Bool
  processing_method : Option String
  retry_suggestions : List String
  retry_endpoint : Option String
  deriving Repr, DecidableEq

/-- The dict `parseMetadata["tokens"]` as read by the pipeline's cache-stats step. -/
structure TokensInfo where
  total_tokens : Nat
  deriving Repr, DecidableEq

/-- The dict `parseMetadata["cost"]` as read by the pipeline's cache-stats step. -/
structure CostInfo where
  total_cost_usd : ℚ
  deriving Repr, DecidableEq

/-- The `cost_savings` sub-dict of the injected cache block. -/
structure CostSavingsInfo where
  tokens_saved : Nat
  cost_saved_usd : ℚ
  cost_saved_inr : ℚ
  deriving Repr, DecidableEq

/-- The `cache` block injected into `parseMetadata` on a cache hit. -/
structure CacheMetaBlock where
  hit : Bool
  cache_key : String
  age_minutes : ℚ
  expires_in_minutes : ℚ
  hit_count : Nat
  created_at : Nat
  response_time : ℚ
  cost_savings : CostSavingsInfo
  deriving Repr, DecidableEq

/-- The dict `data["parseMetadata"]`. -/
structure ParseMetadata where
  confidence : ℚ
  parseTime : ℚ
  warnings : List WarningInfo
  processing_status : Option ProcessingStatus
  tokens : Option TokensInfo
  cost : Option CostInfo
  cache : Option CacheMetaBlock
  deriving Repr, DecidableEq

/-- The dict `data["content"]["personalInfo"]` of the pipeline skeleton. -/
structure ContentPersonalInfo where
  fullName : String
  title : String
  email : String
  phone : String
  location : String
  linkedIn : String
  portfolio : String
  github : String
  customLinks : List String
  deriving Repr, DecidableEq

/-- The dict `data["content"]`. The `summary` dict's single `content` key is the
field `summary_content`; `skills` has the single key `extracted`. -/
structure ContentData where
  personalInfo : ContentPersonalInfo
  summary_content : String
  experience : List String
  education : List String
  skills_extracted : List String
  deriving Repr, DecidableEq

/-- The `data` value of an envelope (also the shape returned by the Gemini
normalizers). -/
structure NormData where
  content : ContentData
  parseMetadata : Option ParseMetadata
  deriving Repr, DecidableEq

/-- The top-level `metadata` object attached to successful envelopes
(`user_id`/`origin`/`origin_valid` are added later by the endpoint). -/
structure MetaInfo where
  filename : String
  file_type : String
  processing_time_seconds : ℚ
  extracted_text_length : Nat
  processing_method : String
  timestamp : Nat
  user_id : Option String
  origin : Option String
  origin_valid : Option Bool
  deriving Repr, DecidableEq

/-- A ProcessingEnvelope: `{"success": …, "data": …, "metadata": …?}`. -/
structure Envelope where
  success : Bool
  data : NormData
  metadata : Option MetaInfo
  deriving Repr, DecidableEq

/- ## `src/parsers/result_cache.py` — store, lookup, insert -/

/-- One value of `_cache_store`. -/
structure CacheEntry where
  data : Envelope
  created_at : Nat
  expires_at : Nat
  last_accessed : Nat
  hit_count : Nat
  ttl : Nat
  tokens_saved : Nat
  cost_saved_usd : ℚ
  cost_saved_inr : ℚ
  deriving Repr, DecidableEq

/-- The store `_cache_store`: a Python dict modelled as an insertion-ordered
association list (Python dicts iterate in insertion order, which matters for
tie-breaking in `min`). -/
abbrev Store := List (String × CacheEntry)

/-- Model of `key in store` / `store[key]` read: the first pair carrying the key. -/
def storeLookup : Store → String → Option CacheEntry
  | [], _ => none
  | kv :: rest, k => if kv.1 = k then some kv.2 else storeLookup rest k

/-- Model of `store[key] = value`: replace in place when the key exists (keeping its
position — a Python dict holds each key at most once), append otherwise. -/
def storeInsert : Store → String → CacheEntry → Store
  | [], k, v => [(k, v)]
  | kv :: rest, k, v =>
    if kv.1 = k then (k, v) :: rest else kv :: storeInsert rest k v

/-- Model of `del store[key]`: drop the pair(s) carrying the key. -/
def storeErase : Store → String → Store
  | [], _ => []
  | kv :: rest, k =>
    if kv.1 = k then storeErase rest k else kv :: storeErase rest k

/-- The constant `CACHE_CONFIG` (`result_cache.py`, lines 18–23): `(1/6)*3600 = 600`
seconds default TTL, 24-hour max TTL, 1000-entry cap, caching enabled. -/
structure CacheConfig where
  default_ttl : Nat
  max_ttl : Nat
  max_cache_size : Nat
  enable_caching : Bool
  deriving Repr, DecidableEq

def CACHE_CONFIG : CacheConfig :=
  { default_ttl := 600, max_ttl := 86400, max_cache_size := 1000,
    enable_caching := true }

/--
Model of `get_cache_config()` (`result_cache.py`, lines 25–36): environment
overrides for the default TTL and the enable flag only — the 1000-entry
cap and the max TTL cannot be overridden. Python's `if os.getenv(...)`
treats an empty value as unset. (`int()` of a non-numeric TTL override
raises in the source; the model keeps the default in that configuration.) -/
def get_cache_config (env : String → Option String) : CacheConfig :=
  let c := CACHE_CONFIG
  let c :=
    match env "RESULT_CACHE_TTL" with
    | some v => if v ≠ "" then { c with default_ttl := v.toNat?.getD c.default_ttl } else c
    | none => c
  match env "RESULT_CACHE_ENABLED" with
  | some v => if v ≠ "" then { c with enable_caching := pyLower v = "true" } else c
  | none => c

/--
The mutation `get_from_cache` performs on the envelope it returns when the
envelope carries `parseMetadata`: flag the processing status as cached and
attach the detailed `cache` block (`result_cache.py`, lines 90–115). -/
def injectCacheMeta (now : Nat) (cache_key : String) (item : CacheEntry)
    (e : Envelope) : Envelope :=
  match e.data.parseMetadata with
  | none => e
  | some pm =>
    let pm :=
      { pm with
        processing_status := pm.processing_status.map
          (fun ps => { ps with cached := true, cache_hit := true }),
        cache := some {
          hit := true
          cache_key := cache_key.take 8 ++ "..."
          age_minutes := pyRound 1 (((now : ℚ) - (item.created_at : ℚ)) / 60)
          expires_in_minutes := pyRound 1 (((item.expires_at : ℚ) - (now : ℚ)) / 60)
          hit_count := item.hit_count
          created_at := item.created_at
          response_time := 0.001
          cost_savings := {
            tokens_saved := item.tokens_saved
            cost_saved_usd := item.cost_saved_usd
            cost_saved_inr := item.cost_saved_inr } } }
    { e with data := { e.data with parseMetadata := some pm } }

/--
Model of `get_from_cache(cache_key)` (`result_cache.py`, lines 61–117), with the
store threaded and `time.time()` the explicit `now`. An entry read strictly
after its `expires_at` is deleted (lazy eviction) and reported as a miss; a
hit stamps `last_accessed`, bumps the hit counter, and returns the envelope
with injected cache metadata. The source's `cached_item["data"].copy()` is
a *shallow* copy, so the injected nested metadata is visible through the
store as well. -/
def get_from_cache (env : String → Option String) (now : Nat)
    (cache_key : String) (store : Store) : Option Envelope × Store :=
  let config := get_cache_config env
  if ¬ config.enable_caching then (none, store)
  else
    match storeLookup store cache_key with
    | none => (none, store)
    | some cached_item =>
      if now > cached_item.expires_at then (none, storeErase store cache_key)
      else
        let item := { cached_item with
          last_accessed := now, hit_count := cached_item.hit_count + 1 }
        let result := injectCacheMeta now cache_key item item.data
        (some result, storeInsert store cache_key { item with data := result })

/--
Model of `min(_cache_store.keys(), key=lambda k: _cache_store[k]["last_accessed"])`:
the first key (in insertion order) with minimal `last_accessed` — Python's
`min` keeps the earliest of tied elements. -/
def oldestKey : Store → Option String
  | [] => none
  | kv :: rest =>
    some ((rest.foldl
      (fun best kv2 =>
        if kv2.2.last_accessed < best.2.last_accessed then kv2 else best)
      kv).1)

/--
Model of `set_to_cache(cache_key, data, ttl, tokens_used, cost_usd)`
(`result_cache.py`, lines 120–161). Python's `ttl or config["default_ttl"]`
also replaces an explicit `0`; the TTL is then clamped to `max_ttl`. When
the store already holds at least `max_cache_size` entries the single
oldest-by-`last_accessed` entry is deleted before the write — whether or
not the written key is already present. (`min` over an empty store would
raise, but is unreachable since `max_cache_size = 1000 > 0`.) -/
def set_to_cache (env : String → Option String) (now : Nat)
    (cache_key : String) (data : Envelope) (ttl : Option Nat)
    (tokens_used : Nat) (cost_usd : ℚ) (store : Store) : Bool × Store :=
  let config := get_cache_config env
  if ¬ config.enable_caching then (false, store)
  else
    let ttl0 :=
      match ttl with
      | none => config.default_ttl
      | some t => if t = 0 then config.default_ttl else t
    let ttl1 := min ttl0 config.max_ttl
    let store1 :=
      if store.length ≥ config.max_cache_size then
        match oldestKey store with
        | some k => storeErase store k
        | none => store
      else store
    let entry : CacheEntry := {
      data := data
      created_at := now
      expires_at := now + ttl1
      last_accessed := now
      hit_count := 0
      ttl := ttl1
      tokens_saved := tokens_used
      cost_saved_usd := cost_usd
      cost_saved_inr := cost_usd * 83.0 }
    (true, storeInsert store1 cache_key entry)

/-- The request parameters `should_bypass_cache` inspects. -/
structure RequestParams where
  fresh : Bool
  no_cache : Bool
  deriving Repr, DecidableEq

/-- Model of `should_bypass_cache(request_params)` (`result_cache.py`, lines 203–217). -/
def should_bypass_cache (env : String → Option String) (p : RequestParams) :
    Bool :=
  if p.fresh || p.no_cache then true
  else if ¬ (get_cache_config env).enable_caching then true
  else false

/- ## `src/parsers/resume_processor.py` -/

/-- Model of `get_processing_method(filename)` (`resume_processor.py`, lines 169–184).
The extension defaults to `''` here. -/
def get_processing_method (filename : String) : String :=
  let ext := fileExtOr filename ""
  if ext ∈ ["jpg", "jpeg", "png"] then "aws_textract_ocr"
  else if ext = "pdf" then "aws_textract_pdf"
  else if ext ∈ ["doc", "docx"] then "python_docx"
  else if ext = "txt" then "direct_text"
  else "unknown"

/-- Model of `get_empty_resume_structure()` (`resume_processor.py`, lines 187–244):
`success: False`, empty content, zeroed parse metadata, no top-level
`metadata` key. -/
def get_empty_resume_structure : Envelope :=
  { success := false
    data := {
      content := {
        personalInfo := {
          fullName := "", title := "", email := "", phone := ""
          location := "", linkedIn := "", portfolio := "", github := ""
          customLinks := [] }
        summary_content := ""
        experience := []
        education := []
        skills_extracted := [] }
      parseMetadata := some {
        confidence := 0
        parseTime := 0
        warnings := []
        processing_status := none
        tokens := none
        cost := none
        cache := none } }
    metadata := none }

/-- Model of `create_error_response(error_message, filename, processing_time)`
(`resume_processor.py`, lines 139–166): the empty structure with the parse
time, a high-severity `processing_error` warning, and a `failed`,
retryable processing status. -/
def create_error_response (error_message : String) (filename : String)
    (processing_time : ℚ) : Envelope :=
  let e := get_empty_resume_structure
  { e with
    data := { e.data with
      parseMetadata := e.data.parseMetadata.map (fun pm =>
        { pm with
          parseTime := processing_time
          warnings := [{
            type := "processing_error"
            message := error_message
            sectionName := "all"
            field := ""
            severity := "high" }]
          processing_status := some {
            status := "failed"
            error_type := some "processing_failure"
            can_retry := true
            cached := false
            cache_hit := false
            processing_method := none
            retry_suggestions := [
              "Try uploading again with ?fresh=true parameter",
              "Ensure the file is not corrupted",
              "Check if the file contains readable text",
              "Try a different file format if possible"]
            retry_endpoint := some "Same endpoint with ?fresh=true" } }) } }

/-- Model of `add_processing_metadata(data, filename, processing_time, text_length)`
(`resume_processor.py`, lines 108–136): marks the parse metadata (when
present) as a fresh success and wraps the data in a `success: True`
envelope with a top-level `metadata` object. `now` stands for the
`time.time()` timestamp taken inside the function. -/
def add_processing_metadata (data : NormData) (filename : String)
    (processing_time : ℚ) (text_length : Nat) (now : Nat) : Envelope :=
  let file_extension := fileExtOr filename "unknown"
  let data := { data with
    parseMetadata := data.parseMetadata.map (fun pm =>
      { pm with processing_status := some {
          status := "success"
          error_type := none
          can_retry := false
          cached := false
          cache_hit := false
          processing_method := some (get_processing_method filename)
          retry_suggestions := []
          retry_endpoint := none } }) }
  { success := true
    data := data
    metadata := some {
      filename := filename
      file_type := file_extension
      processing_time_seconds := pyRound 2 processing_time
      extracted_text_length := text_length
      processing_method := get_processing_method filename
      timestamp := now
      user_id := none
      origin := none
      origin_valid := none } }

/-- The outcomes of the pipeline's two external calls (oracle): what
`extract_text` and the chosen Gemini normalizer return or raise. Which
normalizer runs (`USE_PROMPT_CACHING`) does not change the modelled
behavior — both either return structured data or raise. -/
structure PipelineWorld where
  extraction : Except String String
  normalization : Except String NormData

/--
Model of `process_resume(file_content, filename, request_params)`
(`resume_processor.py`, lines 15–105). Returns the envelope and the updated
result-cache store.

* Step 0: compute the cache key; unless bypassed, consult the result cache
  (which may lazily delete an expired entry) and return a hit immediately.
* Step 1: text extraction; an exception or insufficient text (`< 50` chars
  after stripping) takes the error path.
* Step 2: normalization; an exception takes the error path.
* Step 3: wrap with metadata (`success: True`).
* Step 4: cache the result only if `success` is true, with a 4-hour TTL,
  forwarding token/cost figures from `parseMetadata` when present. (The
  source wraps this write in `try/except`; `set_to_cache` is total here, so
  the swallowed-failure branch has no behavior to model.)
* Any exception is converted by `create_error_response` into a
  `success: False` envelope — `process_resume` itself never raises.

`ptime` stands for the elapsed `time.time() - start_time` values (their
exact magnitudes are irrelevant to every claim). -/
def process_resume (env : String → Option String) (now : Nat) (ptime : ℚ)
    (world : PipelineWorld) (file_content : List Nat) (filename : String)
    (request_params : RequestParams) (store : Store) : Envelope × Store :=
  let cache_key := get_cache_key file_content filename
  let (cached_result, store) :=
    if ¬ should_bypass_cache env request_params then
      get_from_cache env now cache_key store
    else (none, store)
  match cached_result with
  | some c => (c, store)
  | none =>
    match world.extraction with
    | .error msg => (create_error_response msg filename ptime, store)
    | .ok raw_text =>
      if raw_text = "" ∨ (pyStrip raw_text).length < 50 then
        (create_error_response ("Insufficient text extracted from " ++ filename)
          filename ptime, store)
      else
        match world.normalization with
        | .error msg => (create_error_response msg filename ptime, store)
        | .ok structured_data =>
          let result :=
            add_processing_metadata structured_data filename ptime
              raw_text.length now
          if result.success then
            let tokens_used :=
              match result.data.parseMetadata with
              | some pm => ((pm.tokens).map (·.total_tokens)).getD 0
              | none => 0
            let cost_usd :=
              match result.data.parseMetadata with
              | some pm => ((pm.cost).map (·.total_cost_usd)).getD 0
              | none => 0
            (result,
             (set_to_cache env now cache_key result (some 14400)
               tokens_used cost_usd store).2)
          else (result, store)

/- ## `app.py` — the synchronous `/parse-resume` endpoint -/

/-- An uploaded file: FastAPI's `UploadFile` as the endpoint reads it. -/
structure FileUpload where
  filename : String
  content : List Nat
  deriving Repr, DecidableEq

/-- The endpoint's inline empty `data` skeleton used by its `500` error
response (`app.py`, lines 349–358): note it differs from the pipeline's
skeleton (7 flat `personalInfo` keys, `skills` with three lists, a string
`summary`). -/
structure ErrorSkeletonPersonalInfo where
  name : String
  email : String
  phone : String
  location : String
  linkedin : String
  github : String
  portfolio : String
  deriving Repr, DecidableEq

structure ErrorSkeletonSkills where
  technical : List String
  languages : List String
  certifications : List String
  deriving Repr, DecidableEq

structure ErrorSkeleton where
  personalInfo : ErrorSkeletonPersonalInfo
  experience : List String
  education : List String
  skills : ErrorSkeletonSkills
  summary : String
  deriving Repr, DecidableEq

def error_skeleton : ErrorSkeleton :=
  { personalInfo := { name := "", email := "", phone := "", location := ""
                      linkedin := "", github := "", portfolio := "" }
    experience := []
    education := []
    skills := { technical := [], languages := [], certifications := [] }
    summary := "" }

/-- The JSON body of a response from the endpoint. The two `200` shapes come
from `{**(result['data'] if result.get('success') else result),
"metadata": result.get('metadata', {})}`: a successful envelope spreads its
`data`, a failed envelope spreads itself (so `success: false` is at the top
level). `errorObj` is the `500` handler's body (`app.py`, lines 341–360);
`detail` is a raised `HTTPException`. -/
inductive RespBody where
  | parsed (data : NormData) (metadata : Option MetaInfo) : RespBody
  | failed (envelope : Envelope) (metadata : Option MetaInfo) : RespBody
  | errorObj (message : String) (filename : String)
      (processing_time_seconds : ℚ) (timestamp : Nat)
      (data : ErrorSkeleton) : RespBody
  | detail (msg : String) : RespBody
  deriving DecidableEq

/-- Tester: is the body a spread `success: false` failure envelope? -/
def RespBody.isFailedEnvelope : RespBody → Bool
  | .failed e _ => e.success = false
  | _ => false

/-- An HTTP response: status code and body. -/
structure HttpResponse where
  status : Nat
  body : RespBody
  deriving DecidableEq

/-- The shared tail of the endpoint once validation has produced `content`
and `filename`: run the pipeline, stamp user/origin info into the
envelope's `metadata` (only when that key exists), and answer `200` with
the result. A failed pipeline envelope is *not* routed to the `500`
handler — `process_resume` never raises, so the `except` branch is not
reachable from a pipeline failure. -/
def respondWithResult (env : String → Option String) (now : Nat) (ptime : ℚ)
    (world : PipelineWorld) (content : List Nat) (filename : String)
    (fresh : Bool) (user_id origin : String) (origin_valid : Bool)
    (store : Store) : HttpResponse × Store :=
  let request_params : RequestParams := { fresh := fresh, no_cache := false }
  let (result, store) :=
    process_resume env now ptime world content filename request_params store
  let result : Envelope :=
    { result with metadata := result.metadata.map (fun m =>
        { m with user_id := some user_id, origin := some origin,
                 origin_valid := some origin_valid }) }
  if result.success then
    (⟨200, .parsed result.data result.metadata⟩, store)
  else
    (⟨200, .failed result result.metadata⟩, store)

/--
Model of `parse_resume_endpoint` (`app.py`, lines 237–366, the `/parse-resume`
route), after authentication/origin dependencies have resolved. The
validation ladder raises `HTTPException`s (`400`/`413`); a validated
request runs the pipeline and returns `200` (see `respondWithResult`).
The request-statistics counters are bookkeeping with no observable effect
on the response and are not modelled. -/
def parse_resume_endpoint (env : String → Option String) (now : Nat)
    (ptime : ℚ) (world : PipelineWorld) (fileType : String)
    (file : Option FileUpload) (text : Option String) (fresh : Bool)
    (user_id origin : String) (origin_valid : Bool) (store : Store) :
    HttpResponse × Store :=
  if fileType = "file" then
    match file with
    | none => (⟨400, .detail "No file provided"⟩, store)
    | some f =>
      if f.filename = "" then (⟨400, .detail "No file provided"⟩, store)
      else if f.content.length > 10000000 then
        (⟨413, .detail "File too large (max 10MB)"⟩, store)
      else
        let allowed := ["pdf", "doc", "docx", "png", "jpg", "jpeg", "txt"]
        let file_ext := fileExtOr f.filename ""
        if file_ext ∉ allowed then
          (⟨400, .detail ("Unsupported file type: " ++ file_ext
            ++ ". Allowed: pdf, doc, docx, png, jpg, jpeg, txt")⟩, store)
        else
          respondWithResult env now ptime world f.content f.filename fresh
            user_id origin origin_valid store
  else if fileType = "text" then
    match text with
    | none => (⟨400, .detail "No text provided"⟩, store)
    | some t =>
      if t = "" ∨ pyStrip t = "" then (⟨400, .detail "No text provided"⟩, store)
      else
        respondWithResult env now ptime world (utf8Bytes t) "resume.txt" fresh
          user_id origin origin_valid store
  else (⟨400, .detail "Invalid fileType. Must be 'file' or 'text'."⟩, store)

/- ## Derived forms and concrete sample data used by the theorems -/

/-- The entry mutation a cache hit performs before returning
(`last_accessed` stamped, hit counter bumped). -/
def hitEntry (now : Nat) (e : CacheEntry) : CacheEntry :=
  { e with last_accessed := now, hit_count := e.hit_count + 1 }

/-- The envelope a cache hit returns, given the stored entry. -/
def hitResult (now : Nat) (cache_key : String) (e : CacheEntry) : Envelope :=
  injectCacheMeta now cache_key (hitEntry now e) (hitEntry now e).data

/-- The entry `set_to_cache` writes once the TTL has been resolved. -/
def freshEntry (now : Nat) (data : Envelope) (ttl1 : Nat) (tokens_used : Nat)
    (cost_usd : ℚ) : CacheEntry :=
  { data := data
    created_at := now
    expires_at := now + ttl1
    last_accessed := now
    hit_count := 0
    ttl := ttl1
    tokens_saved := tokens_used
    cost_saved_usd := cost_usd
    cost_saved_inr := cost_usd * 83.0 }

/-- The token count `process_resume` forwards to the cache write
(`parseMetadata.tokens.total_tokens` when present, else 0). -/
def tokensOf (e : Envelope) : Nat :=
  match e.data.parseMetadata with
  | some pm => ((pm.tokens).map (·.total_tokens)).getD 0
  | none => 0

/-- The cost figure `process_resume` forwards to the cache write
(`parseMetadata.cost.total_cost_usd` when present, else 0). -/
def costOf (e : Envelope) : ℚ :=
  match e.data.parseMetadata with
  | some pm => ((pm.cost).map (·.total_cost_usd)).getD 0
  | none => 0

/-- An empty environment: no variable set. -/
def envNone : String → Option String := fun _ => none

/-- A sample successful envelope without `parseMetadata` (so a cache hit
returns it verbatim). -/
def sampleEnvelope : Envelope :=
  { success := true
    data := { content := get_empty_resume_structure.data.content
              parseMetadata := none }
    metadata := none }

/-- A sample cache entry with explicit timestamps. -/
def sampleEntryAt (created expires accessed : Nat) : CacheEntry :=
  { data := sampleEnvelope
    created_at := created
    expires_at := expires
    last_accessed := accessed
    hit_count := 0
    ttl := 0
    tokens_saved := 0
    cost_saved_usd := 0
    cost_saved_inr := 0 }

/-- A full store of 1000 distinct keys `"0" … "999"`, entry `i` last
accessed at time `i` (so `"0"` is the least recently accessed). -/
def bigStore : Store :=
  (List.range 1000).map (fun i => (Nat.repr i, sampleEntryAt 0 1000000 i))

/-- A pipeline world in which every extraction strategy fails. -/
def failWorld : PipelineWorld :=
  { extraction := .error
      "All extraction methods failed. Primary: boom, Fallback: boom"
    normalization := .error "unreachable" }

/-- A pipeline world in which extraction and normalization both succeed,
yielding data without `parseMetadata`. -/
def okWorld : PipelineWorld :=
  { extraction := .ok (String.mk (List.replicate 80 'a'))
    normalization := .ok { content := get_empty_resume_structure.data.content
                           parseMetadata := none } }

/- ## Association-list store lemmas -/

theorem storeLookup_insert_self (s : Store) (k : String) (v : CacheEntry) :
    storeLookup (storeInsert s k v) k = some v := by
  induction s with
  | nil => simp [storeInsert, storeLookup]
  | cons hd tl ih =>
    by_cases hh : hd.1 = k
    · simp [storeInsert, storeLookup, hh]
    · simp [storeInsert, storeLookup, hh, ih]

theorem storeLookup_insert_ne (s : Store) (k k' : String) (v : CacheEntry)
    (h : k' ≠ k) : storeLookup (storeInsert s k v) k' = storeLookup s k' := by
  have hkk : ¬ (k = k') := fun hk => h hk.symm
  induction s with
  | nil => simp [storeInsert, storeLookup, hkk]
  | cons hd tl ih =>
    by_cases hh : hd.1 = k
    · have h1 : storeInsert (hd :: tl) k v = (k, v) :: tl := by
        simp [storeInsert, hh]
      have hne : ¬ (hd.1 = k') := by rw [hh]; exact hkk
      rw [h1]
      simp [storeLookup, hkk, hne]
    · have h1 : storeInsert (hd :: tl) k v = hd :: storeInsert tl k v := by
        simp [storeInsert, hh]
      rw [h1]
      by_cases he : hd.1 = k'
      · simp [storeLookup, he]
      · simp [storeLookup, he, ih]

theorem storeLookup_erase_self (s : Store) (k : String) :
    storeLookup (storeErase s k) k = none := by
  induction s with
  | nil => rfl
  | cons hd tl ih =>
    by_cases hh : hd.1 = k
    · simp [storeErase, hh, ih]
    · simp [storeErase, storeLookup, hh, ih]

theorem storeLookup_erase_ne (s : Store) (k k' : String) (h : k' ≠ k) :
    storeLookup (storeErase s k) k' = storeLookup s k' := by
  induction s with
  | nil => rfl
  | cons hd tl ih =>
    by_cases hh : hd.1 = k
    · have hne : hd.1 ≠ k' := by rw [hh]; exact fun hk => h hk.symm
      have h1 : storeErase (hd :: tl) k = storeErase tl k := by
        simp [storeErase, hh]
      rw [h1, ih]
      simp [storeLookup, hne]
    · by_cases he : hd.1 = k'
      · simp [storeErase, storeLookup, hh, he, h]
      · simp [storeErase, storeLookup, hh, he, ih]

/-- Erasing a key that does not occur leaves the store unchanged. -/
theorem storeErase_of_not_mem (s : Store) (k : String)
    (h : k ∉ s.map Prod.fst) : storeErase s k = s := by
  induction s with
  | nil => rfl
  | cons hd tl ih =>
    simp only [List.map_cons, List.mem_cons, not_or] at h
    have hne : hd.1 ≠ k := fun hk => h.1 hk.symm
    simp [storeErase, hne, ih h.2]

theorem length_storeInsert (s : Store) (k : String) (v : CacheEntry) :
    (storeInsert s k v).length =
      if (storeLookup s k).isSome then s.length else s.length + 1 := by
  induction s with
  | nil => simp [storeInsert, storeLookup]
  | cons hd tl ih =>
    by_cases hh : hd.1 = k
    · simp [storeInsert, storeLookup, hh]
    · simp only [storeInsert, hh, if_false, List.length_cons, storeLookup, ih]
      by_cases hp : (storeLookup tl k).isSome <;> simp [hp]

theorem length_storeErase_le (s : Store) (k : String) :
    (storeErase s k).length ≤ s.length := by
  induction s with
  | nil => simp [storeErase]
  | cons hd tl ih =>
    by_cases hh : hd.1 = k
    · simp only [storeErase, hh, if_true, List.length_cons]
      omega
    · simp only [storeErase, hh, if_false, List.length_cons]
      omega

theorem length_storeErase_lt (s : Store) (k : String)
    (h : (storeLookup s k).isSome) : (storeErase s k).length < s.length := by
  induction s with
  | nil => simp [storeLookup] at h
  | cons hd tl ih =>
    by_cases hh : hd.1 = k
    · simp only [storeErase, hh, if_true, List.length_cons]
      have := length_storeErase_le tl k
      omega
    · simp only [storeLookup, hh, if_false] at h
      simp only [storeErase, hh, if_false, List.length_cons]
      have := ih h
      omega

/-- With pairwise-distinct keys (every store reachable from the empty dict),
erasing a present key removes exactly one entry. -/
theorem length_storeErase_nodup (s : Store) (k : String)
    (hnd : (s.map Prod.fst).Nodup) (h : (storeLookup s k).isSome) :
    (storeErase s k).length + 1 = s.length := by
  induction s with
  | nil => simp [storeLookup] at h
  | cons hd tl ih =>
    simp only [List.map_cons, List.nodup_cons] at hnd
    by_cases hh : hd.1 = k
    · have hk : k ∉ tl.map Prod.fst := by rw [← hh]; exact hnd.1
      have h1 : storeErase (hd :: tl) k = storeErase tl k := by
        simp [storeErase, hh]
      rw [h1, storeErase_of_not_mem tl k hk]
      simp
    · simp only [storeLookup, hh, if_false] at h
      simp only [storeErase, hh, if_false, List.length_cons]
      rw [← ih hnd.2 h]

/-- The running minimum of the eviction fold is a member of the candidates. -/
theorem foldl_min_spec (rest : Store) (kv : String × CacheEntry) :
    (rest.foldl
        (fun best kv2 =>
          if kv2.2.last_accessed < best.2.last_accessed then kv2 else best)
        kv) ∈ kv :: rest
    ∧ ∀ x ∈ kv :: rest,
        (rest.foldl
          (fun best kv2 =>
            if kv2.2.last_accessed < best.2.last_accessed then kv2 else best)
          kv).2.last_accessed ≤ x.2.last_accessed := by
  induction rest generalizing kv with
  | nil =>
    refine ⟨List.mem_cons_self _ _, ?_⟩
    intro x hx
    simp only [List.foldl_nil]
    rcases List.mem_cons.mp hx with h | h
    · rw [h]
    · simp at h
  | cons hd tl ih =>
    simp only [List.foldl_cons]
    obtain ⟨ihm, ihb⟩ := ih (if hd.2.last_accessed < kv.2.last_accessed then hd else kv)
    constructor
    · rcases List.mem_cons.mp ihm with h | h
      · rw [h]
        by_cases hc : hd.2.last_accessed < kv.2.last_accessed
        · rw [if_pos hc]
          exact List.mem_cons_of_mem _ (List.mem_cons_self _ _)
        · rw [if_neg hc]
          exact List.mem_cons_self _ _
      · exact List.mem_cons_of_mem _ (List.mem_cons_of_mem _ h)
    · intro x hx
      have hsel : (if hd.2.last_accessed < kv.2.last_accessed then hd else kv).2.last_accessed
          ≤ kv.2.last_accessed
          ∧ (if hd.2.last_accessed < kv.2.last_accessed then hd else kv).2.last_accessed
          ≤ hd.2.last_accessed := by
        by_cases hc : hd.2.last_accessed < kv.2.last_accessed
        · rw [if_pos hc]; exact ⟨le_of_lt hc, le_refl _⟩
        · rw [if_neg hc]; exact ⟨le_refl _, le_of_not_lt hc⟩
      have hfold := ihb _ (List.mem_cons_self _ _)
      rcases List.mem_cons.mp hx with h | h
      · subst h
        exact le_trans hfold hsel.1
      · rcases List.mem_cons.mp h with h2 | h2
        · subst h2
          exact le_trans hfold hsel.2
        · exact ihb _ (List.mem_cons_of_mem _ h2)

/-- The evicted key is present in the store and its entry's `last_accessed`
is minimal among all entries. -/
theorem oldestKey_spec (s : Store) (k : String) (h : oldestKey s = some k) :
    ∃ e, (k, e) ∈ s ∧ ∀ kv ∈ s, e.last_accessed ≤ kv.2.last_accessed := by
  match s with
  | [] => simp [oldestKey] at h
  | kv0 :: rest =>
    simp only [oldestKey, Option.some.injEq] at h
    obtain ⟨hm, hb⟩ := foldl_min_spec rest kv0
    refine ⟨(rest.foldl
      (fun best kv2 =>
        if kv2.2.last_accessed < best.2.last_accessed then kv2 else best)
      kv0).2, ?_, ?_⟩
    · rw [← h]
      exact hm
    · exact hb

theorem oldestKey_isSome (kv : String × CacheEntry) (rest : Store) :
    (oldestKey (kv :: rest)).isSome := by
  simp [oldestKey]

/-- A present pair makes the lookup succeed. -/
theorem storeLookup_isSome_of_mem (s : Store) (k : String) (e : CacheEntry)
    (h : (k, e) ∈ s) : (storeLookup s k).isSome := by
  induction s with
  | nil => simp at h
  | cons hd tl ih =>
    by_cases hh : hd.1 = k
    · simp [storeLookup, hh]
    · rcases List.mem_cons.mp h with h1 | h1
      · rw [← h1] at hh
        simp at hh
      · simp only [storeLookup, hh, if_false]
        exact ih h1

/- ## Behavior lemmas for the cache operations -/

/-- No environment override can change the 1000-entry cap. -/
theorem get_cache_config_max (env : String → Option String) :
    (get_cache_config env).max_cache_size = 1000 := by
  unfold get_cache_config CACHE_CONFIG
  cases env "RESULT_CACHE_TTL" <;> cases env "RESULT_CACHE_ENABLED" <;>
    simp <;> split_ifs <;> rfl

/-- No environment override can change the 24-hour max TTL. -/
theorem get_cache_config_max_ttl (env : String → Option String) :
    (get_cache_config env).max_ttl = 86400 := by
  unfold get_cache_config CACHE_CONFIG
  cases env "RESULT_CACHE_TTL" <;> cases env "RESULT_CACHE_ENABLED" <;>
    simp <;> split_ifs <;> rfl

theorem get_from_cache_disabled (env : String → Option String) (now : Nat)
    (k : String) (s : Store)
    (hen : (get_cache_config env).enable_caching = false) :
    get_from_cache env now k s = (none, s) := by
  simp only [get_from_cache]
  rw [hen]
  simp

theorem get_from_cache_miss (env : String → Option String) (now : Nat)
    (k : String) (s : Store) (h : storeLookup s k = none) :
    get_from_cache env now k s = (none, s) := by
  simp only [get_from_cache]
  rw [h]
  by_cases hen : (get_cache_config env).enable_caching <;> simp [hen]

theorem get_from_cache_expired (env : String → Option String) (now : Nat)
    (k : String) (s : Store) (e : CacheEntry)
    (hen : (get_cache_config env).enable_caching = true)
    (h : storeLookup s k = some e) (hx : now > e.expires_at) :
    get_from_cache env now k s = (none, storeErase s k) := by
  simp only [get_from_cache]
  rw [hen, h]
  simp [hx]

theorem get_from_cache_hit (env : String → Option String) (now : Nat)
    (k : String) (s : Store) (e : CacheEntry)
    (hen : (get_cache_config env).enable_caching = true)
    (h : storeLookup s k = some e) (hx : ¬ now > e.expires_at) :
    get_from_cache env now k s
      = (some (hitResult now k e),
         storeInsert s k { hitEntry now e with data := hitResult now k e }) := by
  simp only [get_from_cache, hitResult]
  rw [hen, h]
  simp [hx, hitEntry]

/-- Injecting cache metadata never changes the `success` flag. -/
theorem injectCacheMeta_success (now : Nat) (k : String) (item : CacheEntry)
    (e : Envelope) : (injectCacheMeta now k item e).success = e.success := by
  unfold injectCacheMeta
  cases e.data.parseMetadata <;> rfl

theorem set_to_cache_disabled (env : String → Option String) (now : Nat)
    (k : String) (d : Envelope) (ttl : Option Nat) (tk : Nat) (cu : ℚ)
    (s : Store) (hen : (get_cache_config env).enable_caching = false) :
    set_to_cache env now k d ttl tk cu s = (false, s) := by
  simp only [set_to_cache]
  rw [hen]
  simp

/-- The enabled write: clamp the TTL, evict the oldest entry when at (or
above) the cap, insert the fresh entry. -/
theorem set_to_cache_enabled (env : String → Option String) (now : Nat)
    (k : String) (d : Envelope) (t : Nat) (tk : Nat) (cu : ℚ) (s : Store)
    (hen : (get_cache_config env).enable_caching = true) (ht : t ≠ 0) :
    set_to_cache env now k d (some t) tk cu s
      = (true,
         storeInsert
           (if s.length ≥ (get_cache_config env).max_cache_size then
              match oldestKey s with
              | some ok => storeErase s ok
              | none => s
            else s)
           k (freshEntry now d (min t (get_cache_config env).max_ttl) tk cu)) := by
  simp only [set_to_cache, freshEntry]
  rw [hen]
  simp [ht]

/-- The function `add_processing_metadata` always marks the envelope successful. -/
theorem add_processing_metadata_success (d : NormData) (f : String) (p : ℚ)
    (n : Nat) (now : Nat) :
    (add_processing_metadata d f p n now).success = true := rfl

/-- The function `create_error_response` always marks the envelope failed. -/
theorem create_error_response_success (m f : String) (p : ℚ) :
    (create_error_response m f p).success = false := rfl

/- ## Branch equations for `process_resume` -/

theorem process_resume_hit (env : String → Option String) (now : Nat)
    (ptime : ℚ) (world : PipelineWorld) (content : List Nat)
    (filename : String) (params : RequestParams) (store : Store)
    (c : Envelope) (s1 : Store)
    (hfetch : (if ¬ should_bypass_cache env params = true then
        get_from_cache env now (get_cache_key content filename) store
      else (none, store)) = (some c, s1)) :
    process_resume env now ptime world content filename params store
      = (c, s1) := by
  simp only [process_resume]
  rw [hfetch]

theorem process_resume_extract_err (env : String → Option String) (now : Nat)
    (ptime : ℚ) (world : PipelineWorld) (content : List Nat)
    (filename : String) (params : RequestParams) (store : Store)
    (s1 : Store) (msg : String)
    (hfetch : (if ¬ should_bypass_cache env params = true then
        get_from_cache env now (get_cache_key content filename) store
      else (none, store)) = (none, s1))
    (hx : world.extraction = .error msg) :
    process_resume env now ptime world content filename params store
      = (create_error_response msg filename ptime, s1) := by
  simp only [process_resume]
  rw [hfetch, hx]

theorem process_resume_short_text (env : String → Option String) (now : Nat)
    (ptime : ℚ) (world : PipelineWorld) (content : List Nat)
    (filename : String) (params : RequestParams) (store : Store)
    (s1 : Store) (t : String)
    (hfetch : (if ¬ should_bypass_cache env params = true then
        get_from_cache env now (get_cache_key content filename) store
      else (none, store)) = (none, s1))
    (hx : world.extraction = .ok t)
    (hshort : t = "" ∨ (pyStrip t).length < 50) :
    process_resume env now ptime world content filename params store
      = (create_error_response ("Insufficient text extracted from " ++ filename)
          filename ptime, s1) := by
  simp only [process_resume]
  rw [hfetch, hx]
  simp [hshort]

theorem process_resume_norm_err (env : String → Option String) (now : Nat)
    (ptime : ℚ) (world : PipelineWorld) (content : List Nat)
    (filename : String) (params : RequestParams) (store : Store)
    (s1 : Store) (t : String) (msg : String)
    (hfetch : (if ¬ should_bypass_cache env params = true then
        get_from_cache env now (get_cache_key content filename) store
      else (none, store)) = (none, s1))
    (hx : world.extraction = .ok t)
    (hlong : ¬ (t = "" ∨ (pyStrip t).length < 50))
    (hn : world.normalization = .error msg) :
    process_resume env now ptime world content filename params store
      = (create_error_response msg filename ptime, s1) := by
  simp only [process_resume]
  rw [hfetch, hx]
  simp only [hlong, if_false]
  rw [hn]

theorem process_resume_success (env : String → Option String) (now : Nat)
    (ptime : ℚ) (world : PipelineWorld) (content : List Nat)
    (filename : String) (params : RequestParams) (store : Store)
    (s1 : Store) (t : String) (nd : NormData)
    (hfetch : (if ¬ should_bypass_cache env params = true then
        get_from_cache env now (get_cache_key content filename) store
      else (none, store)) = (none, s1))
    (hx : world.extraction = .ok t)
    (hlong : ¬ (t = "" ∨ (pyStrip t).length < 50))
    (hn : world.normalization = .ok nd) :
    process_resume env now ptime world content filename params store
      = (add_processing_metadata nd filename ptime t.length now,
         (set_to_cache env now (get_cache_key content filename)
           (add_processing_metadata nd filename ptime t.length now)
           (some 14400)
           (tokensOf (add_processing_metadata nd filename ptime t.length now))
           (costOf (add_processing_metadata nd filename ptime t.length now))
           s1).2) := by
  simp only [process_resume]
  rw [hfetch, hx]
  simp only [hlong, if_false]
  rw [hn]
  simp [tokensOf, costOf, add_processing_metadata_success]

/-- A successful lookup exhibits a member of the store. -/
theorem storeLookup_mem (s : Store) (k : String) (e : CacheEntry)
    (h : storeLookup s k = some e) : (k, e) ∈ s := by
  induction s with
  | nil => cases h
  | cons hd tl ih =>
    by_cases hh : hd.1 = k
    · simp only [storeLookup, hh, if_true, Option.some.injEq] at h
      have hpair : (k, e) = hd := by
        rw [← hh, ← h]
      rw [hpair]
      exact List.mem_cons_self _ _
    · simp only [storeLookup, hh, if_false] at h
      exact List.mem_cons_of_mem _ (ih h)

/-- The envelope returned by a cache hit keeps the stored success flag. -/
theorem hitResult_success (now : Nat) (k : String) (e : CacheEntry) :
    (hitResult now k e).success = e.data.success := by
  unfold hitResult hitEntry
  rw [injectCacheMeta_success]

/-- Only the empty store has no oldest key. -/
theorem oldestKey_eq_none (s : Store) (h : oldestKey s = none) : s = [] := by
  cases s with
  | nil => rfl
  | cons kv rest => simp [oldestKey] at h

/-- When the seed of the eviction fold has `last_accessed = 0`, it wins. -/
theorem oldestKey_head_zero (kv : String × CacheEntry) (rest : Store)
    (h : kv.2.last_accessed = 0) : oldestKey (kv :: rest) = some kv.1 := by
  have hfold : rest.foldl
      (fun best kv2 =>
        if kv2.2.last_accessed < best.2.last_accessed then kv2 else best)
      kv = kv := by
    induction rest with
    | nil => rfl
    | cons x xs ih =>
      simp only [List.foldl_cons, h, Nat.not_lt_zero, if_neg, if_false]
      exact ih
  simp [oldestKey, hfold]

/-- The 1000-entry sample store in head-tail form. -/
theorem bigStore_cons :
    bigStore = ("0", sampleEntryAt 0 1000000 0)
      :: (List.range 999).map
          (fun i => (Nat.repr (i + 1), sampleEntryAt 0 1000000 (i + 1))) := by
  rw [bigStore, List.range_succ_eq_map, List.map_cons, List.map_map]
  rfl

/-- The sample store's oldest key is the first inserted, `"0"`. -/
theorem bigStore_oldest : oldestKey bigStore = some "0" := by
  rw [bigStore_cons]
  exact oldestKey_head_zero _ _ rfl

/-- The key `"500"` is present in the sample store. -/
theorem bigStore_has_500 : (storeLookup bigStore "500").isSome = true := by
  apply storeLookup_isSome_of_mem bigStore "500" (sampleEntryAt 0 1000000 500)
  rw [bigStore]
  apply List.mem_map.mpr
  exact ⟨500, List.mem_range.mpr (by norm_num), rfl⟩

/-- Once validation has passed, the endpoint always answers `200`; a
`failed`-shaped body carries a `success: false` envelope. -/
theorem respondWithResult_spec (env : String → Option String) (now : Nat)
    (ptime : ℚ) (world : PipelineWorld) (content : List Nat)
    (filename : String) (fresh : Bool) (uid og : String) (ov : Bool)
    (store : Store) :
    ((respondWithResult env now ptime world content filename fresh uid og ov
        store).1.status = 200)
    ∧ ∀ e m, (respondWithResult env now ptime world content filename fresh uid
        og ov store).1.body = .failed e m → e.success = false := by
  rcases hpr : process_resume env now ptime world content filename
      ⟨fresh, false⟩ store with ⟨res, st⟩
  constructor
  · simp only [respondWithResult, hpr]
    by_cases hs : res.success <;> simp [hs]
  · intro e m hbody
    simp only [respondWithResult, hpr] at hbody
    by_cases hs : res.success
    · simp [hs] at hbody
    · simp only [hs, Bool.false_eq_true, if_false] at hbody
      have hsf : res.success = false := by
        simpa using hs
      simp only [RespBody.failed.injEq] at hbody
      obtain ⟨he, -⟩ := hbody
      rw [← he]

/- # The claims -/

/--
Claim C3. For every filename and file size, `get_extraction_method` routes as
the specification's table says: cloud OCR (`aws_textract`) for
jpg/jpeg/png/tiff/bmp, cloud OCR for PDFs over 5,000,000 bytes, `pymupdf`
for PDFs of at most 5,000,000 bytes, `python_docx` for doc/docx,
`direct_read` for txt/rtf, and cloud OCR for every other extension
(including a filename with no extension). -/
theorem C3_extraction_routing (filename : String) (file_size : Nat) :
    get_extraction_method filename file_size
      = spec_extraction_routing filename file_size := by
  unfold get_extraction_method spec_extraction_routing
  simp only [List.mem_cons, List.not_mem_nil, or_false]
  split_ifs <;> first | rfl | (exfalso; omega) | (exfalso; simp_all)

/--
Claim C4. `get_cache_key(bytes, filename)` is `"resume_result:"`, then the
lowercased extension after the last dot (`"unknown"` when the filename has
no dot), then `":"`, then the first 16 hex characters of the SHA-256 of the
bytes; and the function is deterministic — equal arguments give the
identical key. -/
theorem C4_cache_key (c : List Nat) (f : String) (c2 : List Nat)
    (f2 : String) (hc : c2 = c) (hf : f2 = f) :
    get_cache_key c f = spec_cache_key c f
    ∧ get_cache_key c2 f2 = get_cache_key c f := by
  rw [hc, hf]
  refine ⟨?_, rfl⟩
  unfold get_cache_key spec_cache_key
  have h : fileExtOr f "unknown" = spec_extension f := by
    unfold fileExtOr spec_extension
    by_cases hdot : f.data.contains '.'
    · rw [if_pos hdot, if_pos hdot, lastSegment_eq_revTakeWhile]
    · rw [if_neg hdot, if_neg hdot]
  rw [h]

/-- Witness for C4 at concrete arguments. -/
theorem C4_cache_key_witness :
    get_cache_key [97, 98] "cv.PDF" = spec_cache_key [97, 98] "cv.PDF"
    ∧ get_cache_key [97, 98] "cv.PDF" = get_cache_key [97, 98] "cv.PDF" :=
  C4_cache_key [97, 98] "cv.PDF" [97, 98] "cv.PDF" rfl rfl

/--
Claim C7. `calculate_cost` prices input at $0.25 per million tokens uncached
and $0.0275 (= $0.25 × 0.11) per million when cached, output at $0.75 per
million regardless of the cached flag, totals input + output, converts to
INR at a fixed 83.0, rounds every monetary field to 6 decimal places, and
reports a savings percentage of 89 when cached and 0 otherwise. (The
function is pure by construction: it takes no state and returns a value.) -/
theorem C7_calculate_cost (i o : Nat) (c : Bool) :
    (calculate_cost i o c).input_cost_usd
        = pyRound 6 (((i : ℚ) / 1000000) * (if c then 0.0275 else 0.25))
    ∧ (calculate_cost i o c).output_cost_usd
        = pyRound 6 (((o : ℚ) / 1000000) * 0.75)
    ∧ (calculate_cost i o true).output_cost_usd
        = (calculate_cost i o false).output_cost_usd
    ∧ (calculate_cost i o c).total_cost_usd
        = pyRound 6 (((i : ℚ) / 1000000) * (if c then 0.0275 else 0.25)
            + ((o : ℚ) / 1000000) * 0.75)
    ∧ (calculate_cost i o c).input_cost_inr
        = pyRound 6 ((((i : ℚ) / 1000000) * (if c then 0.0275 else 0.25)) * 83)
    ∧ (calculate_cost i o c).output_cost_inr
        = pyRound 6 ((((o : ℚ) / 1000000) * 0.75) * 83)
    ∧ (calculate_cost i o c).total_cost_inr
        = pyRound 6 ((((i : ℚ) / 1000000) * (if c then 0.0275 else 0.25)
            + ((o : ℚ) / 1000000) * 0.75) * 83)
    ∧ (calculate_cost i o c).savings_percentage = (if c then 89 else 0)
    ∧ (calculate_cost i o c).total_tokens = i + o := by
  have h25 : (0.25 : ℚ) * 0.11 = 0.0275 := by norm_num
  have h83 : (83.0 : ℚ) = 83 := by norm_num
  unfold calculate_cost
  cases c <;> simp [h25, h83]

/--
Claim C8 (counterexample). With the JWT secret absent from the environment,
`verify_token` does *not* fail with exactly the message
`"JWT_SECRET_KEY environment variable is required"`: its own guard
exception is caught by the function's final `except Exception` handler and
re-raised with the `"Token verification failed: "` prefix. -/
theorem C8_counterexample :
    verify_token (fun _ => none) (.ok [])
      = .error "Token verification failed: JWT_SECRET_KEY environment variable is required"
    ∧ ("Token verification failed: JWT_SECRET_KEY environment variable is required"
        ≠ "JWT_SECRET_KEY environment variable is required") :=
  ⟨rfl, by decide⟩

/--
Claim C8 (amended). For every token-decode outcome, when the shared JWT
secret is absent from the environment (or empty, which Python's truthiness
test treats the same), `verify_token` fails with the message
`"Token verification failed: JWT_SECRET_KEY environment variable is
required"` — the documented message wrapped by the generic handler. -/
theorem C8_missing_secret_wrapped (env : String → Option String)
    (d : JwtOutcome)
    (h : env "JWT_SECRET_KEY" = none ∨ env "JWT_SECRET_KEY" = some "") :
    verify_token env d
      = .error "Token verification failed: JWT_SECRET_KEY environment variable is required" := by
  unfold verify_token verify_token_body
  rcases h with h | h <;> rw [h] <;> simp

/-- Witness for C8 (amended). -/
theorem C8_missing_secret_wrapped_witness :
    verify_token (fun _ => none) (.expired)
      = .error "Token verification failed: JWT_SECRET_KEY environment variable is required" :=
  C8_missing_secret_wrapped (fun _ => none) (.expired) (Or.inl rfl)

/--
Claim C10. `get_auth_user_id` fails with `"User ID not found in token"`
exactly when the `userId` value (defaulting to `None` when the key is
absent) is falsy — in particular when the key is missing or holds the
empty string — and returns the value exactly when it is truthy. -/
theorem C10_get_auth_user_id (d : Claims) :
    (get_auth_user_id d = .error "User ID not found in token"
        ↔ (dictGet d "userId").truthy = false)
    ∧ (∀ v, get_auth_user_id d = .ok v
        ↔ dictGet d "userId" = v ∧ v.truthy = true)
    ∧ (List.find? (fun kv => kv.1 = "userId") d = none
        → get_auth_user_id d = .error "User ID not found in token")
    ∧ (dictGet d "userId" = .str ""
        → get_auth_user_id d = .error "User ID not found in token") := by
  refine ⟨?_, ?_, ?_, ?_⟩
  · unfold get_auth_user_id
    by_cases h : (dictGet d "userId").truthy <;> simp [h]
  · intro v
    unfold get_auth_user_id
    by_cases h : (dictGet d "userId").truthy
    · simp only [h, if_true]
      constructor
      · intro hv
        cases hv
        exact ⟨rfl, h⟩
      · intro ⟨h1, _⟩
        rw [h1]
    · simp only [h, if_false]
      constructor
      · intro hv
        cases hv
      · intro ⟨h1, h2⟩
        rw [h1] at h
        exact absurd h2 (by simpa using h)
  · intro h
    unfold get_auth_user_id
    have : dictGet d "userId" = .nonePy := by
      unfold dictGet
      rw [h]
    rw [this]
    rfl
  · intro h
    unfold get_auth_user_id
    rw [h]
    rfl

/-- Witness for C10 at a concrete claims dict holding an empty `userId`. -/
theorem C10_get_auth_user_id_witness :
    (get_auth_user_id [("userId", PyVal.str "")] = .error "User ID not found in token"
        ↔ (dictGet [("userId", PyVal.str "")] "userId").truthy = false)
    ∧ (∀ v, get_auth_user_id [("userId", PyVal.str "")] = .ok v
        ↔ dictGet [("userId", PyVal.str "")] "userId" = v ∧ v.truthy = true)
    ∧ (List.find? (fun kv => kv.1 = "userId")
          ([("userId", PyVal.str "")] : Claims) = none
        → get_auth_user_id [("userId", PyVal.str "")]
            = .error "User ID not found in token")
    ∧ (dictGet [("userId", PyVal.str "")] "userId" = .str ""
        → get_auth_user_id [("userId", PyVal.str "")]
            = .error "User ID not found in token") :=
  C10_get_auth_user_id [("userId", PyVal.str "")]

set_option maxRecDepth 20000 in
/--
Claim C5 (counterexample). A result stored with `ttl=1` at time 0 and read 1
second later (i.e. ≥ 1 second after the store, at exactly `expires_at`) is
*returned*, not a miss: the code's expiry test is the strict
`time.time() > expires_at`, so the claim's "returns … only when now is
strictly less than `expires_at`" / "a read ≥ 1 second later returns
nothing" fails at the boundary. -/
theorem C5_counterexample :
    ((get_from_cache envNone 1 "k"
        (set_to_cache envNone 0 "k" sampleEnvelope (some 1) 0 0 []).2).1
      = some sampleEnvelope)
    ∧ (1 : Nat) - 0 ≥ 1 := by
  constructor
  · rfl
  · decide

/--
Claim C5 (amended). `get_from_cache` returns a result if and only if caching
is enabled, the key is present, and the current time has *not passed* the
entry's `expires_at` (`now ≤ expires_at` — a read at exactly `expires_at`
is still a hit, because the code tests the strict `now > expires_at`);
when the current time is strictly past `expires_at` (and caching is
enabled), the call returns nothing and deletes the entry from the store
(lazy eviction). -/
theorem C5_get_from_cache (env : String → Option String) (now : Nat)
    (key : String) (store : Store) :
    ((get_from_cache env now key store).1.isSome
      ↔ (get_cache_config env).enable_caching = true
        ∧ ∃ e, storeLookup store key = some e ∧ now ≤ e.expires_at)
    ∧ (∀ e, storeLookup store key = some e → e.expires_at < now →
        (get_cache_config env).enable_caching = true →
        (get_from_cache env now key store).1 = none
        ∧ storeLookup (get_from_cache env now key store).2 key = none) := by
  constructor
  · by_cases hen : (get_cache_config env).enable_caching
    · cases hl : storeLookup store key with
      | none =>
        rw [get_from_cache_miss env now key store hl]
        simp
      | some e =>
        by_cases hx : now > e.expires_at
        · rw [get_from_cache_expired env now key store e hen hl hx]
          constructor
          · intro hsome
            simp at hsome
          · rintro ⟨-, e2, h2, h3⟩
            injection h2 with h2
            subst h2
            exact absurd h3 (by omega)
        · rw [get_from_cache_hit env now key store e hen hl hx]
          simp only [Option.isSome_some, true_iff]
          exact ⟨hen, e, rfl, by omega⟩
    · rw [get_from_cache_disabled env now key store (by simpa using hen)]
      simp [hen]
  · intro e hl hx hen
    rw [get_from_cache_expired env now key store e hen hl (by omega)]
    exact ⟨rfl, storeLookup_erase_self store key⟩

/-- Witness for C5 (amended) at concrete values (an expired entry read
past its expiry). -/
theorem C5_get_from_cache_witness :
    (((get_from_cache envNone 7 "k" [("k", sampleEntryAt 0 5 0)]).1.isSome
      ↔ (get_cache_config envNone).enable_caching = true
        ∧ ∃ e, storeLookup [("k", sampleEntryAt 0 5 0)] "k" = some e
            ∧ 7 ≤ e.expires_at)
    ∧ (∀ e, storeLookup [("k", sampleEntryAt 0 5 0)] "k" = some e
        → e.expires_at < 7 →
        (get_cache_config envNone).enable_caching = true →
        (get_from_cache envNone 7 "k" [("k", sampleEntryAt 0 5 0)]).1 = none
        ∧ storeLookup
            (get_from_cache envNone 7 "k" [("k", sampleEntryAt 0 5 0)]).2 "k"
          = none)) :=
  C5_get_from_cache envNone 7 "k" [("k", sampleEntryAt 0 5 0)]

/--
Claim C6. A `set_to_cache` call never grows the store beyond 1000 entries:
from any store within the cap the result stays within the cap, and a write
into a store exactly at the cap (with caching enabled, distinct keys, and
the written key fresh) leaves exactly 1000 entries, having evicted the
key whose entry's `last_accessed` is minimal over the whole store. -/
theorem C6_cache_size_bound (env : String → Option String) (now : Nat)
    (key : String) (d : Envelope) (ttl : Option Nat) (tk : Nat) (cu : ℚ)
    (store : Store) (h : store.length ≤ 1000) :
    ((set_to_cache env now key d ttl tk cu store).2.length ≤ 1000)
    ∧ (store.length = 1000 →
        (get_cache_config env).enable_caching = true →
        (store.map Prod.fst).Nodup →
        storeLookup store key = none →
        (set_to_cache env now key d ttl tk cu store).2.length = 1000
        ∧ ∀ ok, oldestKey store = some ok →
            storeLookup (set_to_cache env now key d ttl tk cu store).2 ok = none
            ∧ ∃ e, (ok, e) ∈ store
                ∧ ∀ kv ∈ store, e.last_accessed ≤ kv.2.last_accessed) := by
  have hmax := get_cache_config_max env
  by_cases hen : (get_cache_config env).enable_caching
  · -- enabled write: package the written entry's TTL abstractly
    obtain ⟨t1, hset⟩ :
        ∃ t1, (set_to_cache env now key d ttl tk cu store).2
          = storeInsert
              (if store.length ≥ (get_cache_config env).max_cache_size then
                match oldestKey store with
                | some ok => storeErase store ok
                | none => store
              else store)
              key (freshEntry now d t1 tk cu) := by
      refine ⟨min (match ttl with
                   | none => (get_cache_config env).default_ttl
                   | some t =>
                     if t = 0 then (get_cache_config env).default_ttl else t)
                ((get_cache_config env).max_ttl), ?_⟩
      simp only [set_to_cache, freshEntry]
      rw [hen]
      simp
    constructor
    · by_cases hfull : store.length ≥ (get_cache_config env).max_cache_size
      · cases hok : oldestKey store with
        | none =>
          have hnil := oldestKey_eq_none store hok
          rw [hnil] at hfull
          rw [hmax] at hfull
          simp at hfull
        | some ok =>
          have hset2 : (set_to_cache env now key d ttl tk cu store).2
              = storeInsert (storeErase store ok) key
                  (freshEntry now d t1 tk cu) := by
            rw [hset, if_pos hfull]
            simp only [hok]
          obtain ⟨e, hmem, _⟩ := oldestKey_spec store ok hok
          have hsome := storeLookup_isSome_of_mem store ok e hmem
          have hlt := length_storeErase_lt store ok hsome
          rw [hset2, length_storeInsert]
          rw [hmax] at hfull
          split_ifs <;> omega
      · rw [hset, if_neg hfull]
        rw [hmax] at hfull
        rw [length_storeInsert]
        split_ifs <;> omega
    · intro hfull hen2 hnd hkey
      have hfull2 : store.length ≥ (get_cache_config env).max_cache_size := by
        rw [hmax]; omega
      cases hok : oldestKey store with
      | none =>
        have hnil := oldestKey_eq_none store hok
        rw [hnil] at hfull
        simp at hfull
      | some ok =>
        obtain ⟨e, hmem, hmin⟩ := oldestKey_spec store ok hok
        have hsome := storeLookup_isSome_of_mem store ok e hmem
        have hokne : ok ≠ key := by
          intro hk
          rw [hk, hkey] at hsome
          simp at hsome
        have herase := length_storeErase_nodup store ok hnd hsome
        have hset2 : (set_to_cache env now key d ttl tk cu store).2
            = storeInsert (storeErase store ok) key
                (freshEntry now d t1 tk cu) := by
          rw [hset, if_pos hfull2]
          simp only [hok]
        rw [hset2]
        constructor
        · rw [length_storeInsert]
          have hl2 : storeLookup (storeErase store ok) key
              = storeLookup store key :=
            storeLookup_erase_ne store ok key (fun hk => hokne hk.symm)
          rw [hl2, hkey]
          simp only [Option.isSome_none, Bool.false_eq_true, if_false]
          omega
        · intro ok2 hok2
          injection hok2 with h2
          subst h2
          refine ⟨?_, e, hmem, hmin⟩
          rw [storeLookup_insert_ne _ key ok _ hokne]
          exact storeLookup_erase_self store ok
  · -- caching disabled: the store is untouched
    have hdis : (get_cache_config env).enable_caching = false := by
      simpa using hen
    rw [set_to_cache_disabled env now key d ttl tk cu store hdis]
    refine ⟨h, ?_⟩
    intro _ hen2
    rw [hdis] at hen2
    cases hen2

/-- Witness for C6 at a small concrete store (within the cap). -/
theorem C6_cache_size_bound_witness :
    ((set_to_cache envNone 5 "k" sampleEnvelope (some 60) 0 0
        [("a", sampleEntryAt 0 9 0)]).2.length ≤ 1000)
    ∧ (([("a", sampleEntryAt 0 9 0)] : Store).length = 1000 →
        (get_cache_config envNone).enable_caching = true →
        (([("a", sampleEntryAt 0 9 0)] : Store).map Prod.fst).Nodup →
        storeLookup [("a", sampleEntryAt 0 9 0)] "k" = none →
        (set_to_cache envNone 5 "k" sampleEnvelope (some 60) 0 0
            [("a", sampleEntryAt 0 9 0)]).2.length = 1000
        ∧ ∀ ok, oldestKey [("a", sampleEntryAt 0 9 0)] = some ok →
            storeLookup (set_to_cache envNone 5 "k" sampleEnvelope (some 60) 0 0
                [("a", sampleEntryAt 0 9 0)]).2 ok = none
            ∧ ∃ e, (ok, e) ∈ ([("a", sampleEntryAt 0 9 0)] : Store)
                ∧ ∀ kv ∈ ([("a", sampleEntryAt 0 9 0)] : Store),
                    e.last_accessed ≤ kv.2.last_accessed) :=
  C6_cache_size_bound envNone 5 "k" sampleEnvelope (some 60) 0 0
    [("a", sampleEntryAt 0 9 0)] (by decide)

/--
Claim C9. When `set_to_cache` writes into a store holding at least the
1000-entry maximum and the written key is *already present*, the
oldest-by-`last_accessed` entry is still evicted before the overwrite: if
that oldest key differs from the written key, a different, unrelated entry
is removed and the total entry count strictly decreases. -/
theorem C9_full_store_overwrite (env : String → Option String) (now : Nat)
    (key : String) (d : Envelope) (ttl : Option Nat) (tk : Nat) (cu : ℚ)
    (store : Store)
    (hen : (get_cache_config env).enable_caching = true)
    (hlen : 1000 ≤ store.length)
    (hkey : (storeLookup store key).isSome = true)
    (ok : String) (hok : oldestKey store = some ok) (hne : ok ≠ key) :
    storeLookup (set_to_cache env now key d ttl tk cu store).2 ok = none
    ∧ (set_to_cache env now key d ttl tk cu store).2.length < store.length := by
  have hmax := get_cache_config_max env
  obtain ⟨t1, hset⟩ :
      ∃ t1, (set_to_cache env now key d ttl tk cu store).2
        = storeInsert
            (if store.length ≥ (get_cache_config env).max_cache_size then
              match oldestKey store with
              | some ok => storeErase store ok
              | none => store
            else store)
            key (freshEntry now d t1 tk cu) := by
    refine ⟨min (match ttl with
                 | none => (get_cache_config env).default_ttl
                 | some t =>
                   if t = 0 then (get_cache_config env).default_ttl else t)
              ((get_cache_config env).max_ttl), ?_⟩
    simp only [set_to_cache, freshEntry]
    rw [hen]
    simp
  have hfull : store.length ≥ (get_cache_config env).max_cache_size := by
    rw [hmax]; omega
  have hset2 : (set_to_cache env now key d ttl tk cu store).2
      = storeInsert (storeErase store ok) key (freshEntry now d t1 tk cu) := by
    rw [hset, if_pos hfull]
    simp only [hok]
  obtain ⟨e, hmem, _⟩ := oldestKey_spec store ok hok
  have hoksome := storeLookup_isSome_of_mem store ok e hmem
  constructor
  · rw [hset2, storeLookup_insert_ne _ key ok _ hne]
    exact storeLookup_erase_self store ok
  · rw [hset2, length_storeInsert]
    have hl2 : storeLookup (storeErase store ok) key = storeLookup store key :=
      storeLookup_erase_ne store ok key (fun hk => hne hk.symm)
    rw [hl2]
    have hlt := length_storeErase_lt store ok hoksome
    simp only [hkey, if_true]
    omega

/-- Witness for C9: a concrete full store of 1000 entries, overwriting the
present key `"500"` evicts the unrelated least-recently-accessed `"0"` and
shrinks the store to 999 entries. -/
theorem C9_full_store_overwrite_witness :
    storeLookup
        (set_to_cache envNone 5 "500" sampleEnvelope (some 60) 0 0 bigStore).2
        "0" = none
    ∧ (set_to_cache envNone 5 "500" sampleEnvelope (some 60) 0 0
          bigStore).2.length < bigStore.length :=
  C9_full_store_overwrite envNone 5 "500" sampleEnvelope (some 60) 0 0 bigStore
    rfl
    (by rw [bigStore, List.length_map, List.length_range])
    bigStore_has_500
    "0" bigStore_oldest (by decide)

set_option maxRecDepth 20000 in
/--
Claim C1 (counterexample). A run whose envelope comes back `success: false`
can still change the cache mapping at its key: when an *expired* entry sits
at the key, the initial cache lookup lazily deletes it, and the failing run
ends with the key absent although it was present before — so "the cache
mapping is unchanged by the run at that key" is false as stated. -/
theorem C1_counterexample :
    ((process_resume envNone 10 1 failWorld [97] "r.txt" ⟨false, false⟩
        [(get_cache_key [97] "r.txt", sampleEntryAt 0 5 0)]).1.success = false)
    ∧ storeLookup
        (process_resume envNone 10 1 failWorld [97] "r.txt" ⟨false, false⟩
          [(get_cache_key [97] "r.txt", sampleEntryAt 0 5 0)]).2
        (get_cache_key [97] "r.txt") = none
    ∧ storeLookup [(get_cache_key [97] "r.txt", sampleEntryAt 0 5 0)]
        (get_cache_key [97] "r.txt") = some (sampleEntryAt 0 5 0) := by
  refine ⟨rfl, ?_, ?_⟩ <;> decide

/--
Claim C1 (amended). Over any store whose entries all hold successful
envelopes (the only entries the pipeline ever writes), a `process_resume`
run that returns a `success: false` envelope writes nothing at its cache
key: the mapping at that key is unchanged, except that an already-expired
entry may have been removed by the initial lookup's lazy eviction. An
entry appears at a previously-absent key only when the run's envelope is
successful, and then it carries the 4-hour TTL (`ttl = 14400`,
`expires_at = now + 14400`) and the run's own envelope. -/
theorem C1_failed_not_cached (env : String → Option String) (now : Nat)
    (ptime : ℚ) (world : PipelineWorld) (content : List Nat)
    (filename : String) (params : RequestParams) (store : Store)
    (hwf : ∀ kv ∈ store, kv.2.data.success = true) :
    ((process_resume env now ptime world content filename params store).1.success
        = false →
      storeLookup
          (process_resume env now ptime world content filename params store).2
          (get_cache_key content filename)
        = storeLookup store (get_cache_key content filename)
      ∨ (storeLookup
            (process_resume env now ptime world content filename params store).2
            (get_cache_key content filename) = none
         ∧ ∃ e, storeLookup store (get_cache_key content filename) = some e
             ∧ e.expires_at < now))
    ∧ (storeLookup store (get_cache_key content filename) = none →
        ∀ e, storeLookup
            (process_resume env now ptime world content filename params store).2
            (get_cache_key content filename) = some e →
          (process_resume env now ptime world content filename params store).1.success
            = true
          ∧ e.ttl = 14400 ∧ e.expires_at = now + 14400 ∧ e.created_at = now
          ∧ e.data
            = (process_resume env now ptime world content filename params store).1) := by
  set K := get_cache_key content filename with hK
  have hfetch_or :
      ((if ¬ should_bypass_cache env params = true then
          get_from_cache env now K store else (none, store)) = (none, store))
      ∨ (∃ entry, storeLookup store K = some entry ∧ entry.expires_at < now
          ∧ (if ¬ should_bypass_cache env params = true then
              get_from_cache env now K store else (none, store))
            = (none, storeErase store K))
      ∨ (∃ entry, storeLookup store K = some entry
          ∧ (if ¬ should_bypass_cache env params = true then
              get_from_cache env now K store else (none, store))
            = (some (hitResult now K entry),
               storeInsert store K
                 { hitEntry now entry with data := hitResult now K entry })) := by
    by_cases hb : should_bypass_cache env params = true
    · left; simp [hb]
    · by_cases hen : (get_cache_config env).enable_caching = true
      · cases hl : storeLookup store K with
        | none => left; simp [hb, get_from_cache_miss env now K store hl]
        | some entry =>
          by_cases hx2 : now > entry.expires_at
          · right; left
            exact ⟨entry, rfl, by omega,
              by simp [hb, get_from_cache_expired env now K store entry hen hl hx2]⟩
          · right; right
            exact ⟨entry, rfl,
              by simp [hb, get_from_cache_hit env now K store entry hen hl hx2]⟩
      · left
        have hdis : (get_cache_config env).enable_caching = false := by
          simpa using hen
        simp [hb, get_from_cache_disabled env now K store hdis]
  rcases hfetch_or with hfetch | ⟨entry, hl, hexp, hfetch⟩ | ⟨entry, hl, hfetch⟩
  · -- the lookup left the store untouched (bypass, miss, or caching off)
    cases hx : world.extraction with
    | error msg =>
      rw [process_resume_extract_err env now ptime world content filename
        params store store msg hfetch hx]
      refine ⟨fun _ => Or.inl rfl, ?_⟩
      intro hnone e he
      rw [hnone] at he
      cases he
    | ok t =>
      by_cases hshort : t = "" ∨ (pyStrip t).length < 50
      · rw [process_resume_short_text env now ptime world content filename
          params store store t hfetch hx hshort]
        refine ⟨fun _ => Or.inl rfl, ?_⟩
        intro hnone e he
        rw [hnone] at he
        cases he
      · cases hn : world.normalization with
        | error msg =>
          rw [process_resume_norm_err env now ptime world content filename
            params store store t msg hfetch hx hshort hn]
          refine ⟨fun _ => Or.inl rfl, ?_⟩
          intro hnone e he
          rw [hnone] at he
          cases he
        | ok nd =>
          rw [process_resume_success env now ptime world content filename
            params store store t nd hfetch hx hshort hn]
          have hsucc : (add_processing_metadata nd filename ptime t.length
              now).success = true := add_processing_metadata_success _ _ _ _ _
          constructor
          · intro hfalse
            rw [hsucc] at hfalse
            cases hfalse
          · intro hnone e he
            by_cases hen : (get_cache_config env).enable_caching = true
            · rw [set_to_cache_enabled env now K
                (add_processing_metadata nd filename ptime t.length now) 14400
                (tokensOf (add_processing_metadata nd filename ptime t.length now))
                (costOf (add_processing_metadata nd filename ptime t.length now))
                store hen (by norm_num)] at he
              rw [storeLookup_insert_self] at he
              injection he with he
              subst he
              have h14 : min 14400 (get_cache_config env).max_ttl = 14400 := by
                rw [get_cache_config_max_ttl]
                decide
              refine ⟨hsucc, ?_, ?_, rfl, rfl⟩
              · simp [freshEntry, h14]
              · simp [freshEntry, h14]
            · have hdis : (get_cache_config env).enable_caching = false := by
                simpa using hen
              rw [set_to_cache_disabled env now K _ _ _ _ store hdis] at he
              rw [hnone] at he
              cases he
  · -- an expired entry was lazily evicted during the lookup
    cases hx : world.extraction with
    | error msg =>
      rw [process_resume_extract_err env now ptime world content filename
        params store (storeErase store K) msg hfetch hx]
      refine ⟨fun _ => Or.inr ⟨storeLookup_erase_self store K, entry, hl, hexp⟩, ?_⟩
      intro hnone
      rw [hnone] at hl
      cases hl
    | ok t =>
      by_cases hshort : t = "" ∨ (pyStrip t).length < 50
      · rw [process_resume_short_text env now ptime world content filename
          params store (storeErase store K) t hfetch hx hshort]
        refine ⟨fun _ => Or.inr ⟨storeLookup_erase_self store K, entry, hl, hexp⟩, ?_⟩
        intro hnone
        rw [hnone] at hl
        cases hl
      · cases hn : world.normalization with
        | error msg =>
          rw [process_resume_norm_err env now ptime world content filename
            params store (storeErase store K) t msg hfetch hx hshort hn]
          refine ⟨fun _ => Or.inr ⟨storeLookup_erase_self store K, entry, hl, hexp⟩, ?_⟩
          intro hnone
          rw [hnone] at hl
          cases hl
        | ok nd =>
          rw [process_resume_success env now ptime world content filename
            params store (storeErase store K) t nd hfetch hx hshort hn]
          have hsucc : (add_processing_metadata nd filename ptime t.length
              now).success = true := add_processing_metadata_success _ _ _ _ _
          constructor
          · intro hfalse
            rw [hsucc] at hfalse
            cases hfalse
          · intro hnone
            rw [hnone] at hl
            cases hl
  · -- a fresh-enough entry: the run answers from the cache
    rw [process_resume_hit env now ptime world content filename params store
      (hitResult now K entry)
      (storeInsert store K { hitEntry now entry with data := hitResult now K entry })
      hfetch]
    have hsucc : (hitResult now K entry).success = true := by
      rw [hitResult_success]
      exact hwf (K, entry) (storeLookup_mem store K entry hl)
    constructor
    · intro hfalse
      rw [hsucc] at hfalse
      cases hfalse
    · intro hnone
      rw [hnone] at hl
      cases hl

/-- Witness for C1 (amended): a failing run over the empty store. -/
theorem C1_failed_not_cached_witness :
    (((process_resume envNone 10 1 failWorld [97] "r.txt" ⟨false, false⟩
        []).1.success = false →
      storeLookup (process_resume envNone 10 1 failWorld [97] "r.txt"
          ⟨false, false⟩ []).2 (get_cache_key [97] "r.txt")
        = storeLookup [] (get_cache_key [97] "r.txt")
      ∨ (storeLookup (process_resume envNone 10 1 failWorld [97] "r.txt"
            ⟨false, false⟩ []).2 (get_cache_key [97] "r.txt") = none
         ∧ ∃ e, storeLookup [] (get_cache_key [97] "r.txt") = some e
             ∧ e.expires_at < 10))
    ∧ (storeLookup [] (get_cache_key [97] "r.txt") = none →
        ∀ e, storeLookup (process_resume envNone 10 1 failWorld [97] "r.txt"
            ⟨false, false⟩ []).2 (get_cache_key [97] "r.txt") = some e →
          (process_resume envNone 10 1 failWorld [97] "r.txt"
            ⟨false, false⟩ []).1.success = true
          ∧ e.ttl = 14400 ∧ e.expires_at = 10 + 14400 ∧ e.created_at = 10
          ∧ e.data = (process_resume envNone 10 1 failWorld [97] "r.txt"
              ⟨false, false⟩ []).1)) :=
  C1_failed_not_cached envNone 10 1 failWorld [97] "r.txt" ⟨false, false⟩ []
    (by intro kv hkv; cases hkv)

set_option maxRecDepth 20000 in
/--
Claim C2 (counterexample). A request whose pipeline fails (every extraction
strategy exhausted) is answered with HTTP **200**, not 500: `process_resume`
traps the failure and returns the `success: false` skeleton envelope, which
the endpoint serializes into a 200 response; no top-level `error` object is
produced. -/
theorem C2_counterexample :
    ((parse_resume_endpoint envNone 10 1 failWorld "text" none
        (some "John Doe resume text") false "u1" "origin" true []).1.status
      = 200)
    ∧ ((parse_resume_endpoint envNone 10 1 failWorld "text" none
        (some "John Doe resume text") false "u1" "origin" true
        []).1.body.isFailedEnvelope = true)
    ∧ (200 : Nat) ≠ 500 := by
  refine ⟨by decide, by decide, by decide⟩

/--
Claim C2 (amended). The synchronous parse endpoint never answers 500: every
response is 200 (a completed run — including pipeline failures, which
`process_resume` traps into a `success: false` envelope spread into the
200 body), 400 (validation), or 413 (oversize). A `failed`-shaped body
always rides a 200 response and carries `success: false`. The
`{success:false, error:{…}, data:<skeleton>}` / 500 shape of the source's
`except` handler is reachable only by an exception escaping the endpoint
body itself, which a pipeline failure never raises. -/
theorem C2_failure_is_200 (env : String → Option String) (now : Nat)
    (ptime : ℚ) (world : PipelineWorld) (fileType : String)
    (file : Option FileUpload) (text : Option String) (fresh : Bool)
    (uid og : String) (ov : Bool) (store : Store) :
    ((parse_resume_endpoint env now ptime world fileType file text fresh uid og
        ov store).1.status = 200
      ∨ (parse_resume_endpoint env now ptime world fileType file text fresh uid
          og ov store).1.status = 400
      ∨ (parse_resume_endpoint env now ptime world fileType file text fresh uid
          og ov store).1.status = 413)
    ∧ (parse_resume_endpoint env now ptime world fileType file text fresh uid og
        ov store).1.status ≠ 500
    ∧ ∀ e m, (parse_resume_endpoint env now ptime world fileType file text fresh
        uid og ov store).1.body = .failed e m →
        (parse_resume_endpoint env now ptime world fileType file text fresh uid
          og ov store).1.status = 200
        ∧ e.success = false := by
  have hmain :
      ((parse_resume_endpoint env now ptime world fileType file text fresh uid
          og ov store).1.status = 200
        ∨ (parse_resume_endpoint env now ptime world fileType file text fresh
            uid og ov store).1.status = 400
        ∨ (parse_resume_endpoint env now ptime world fileType file text fresh
            uid og ov store).1.status = 413)
      ∧ ∀ e m, (parse_resume_endpoint env now ptime world fileType file text
          fresh uid og ov store).1.body = .failed e m →
          (parse_resume_endpoint env now ptime world fileType file text fresh
            uid og ov store).1.status = 200
          ∧ e.success = false := by
    by_cases hft : fileType = "file"
    · subst hft
      cases file with
      | none =>
        have he : parse_resume_endpoint env now ptime world "file" none text
            fresh uid og ov store
            = (⟨400, .detail "No file provided"⟩, store) := rfl
        rw [he]
        exact ⟨Or.inr (Or.inl rfl), fun e m hbody => by cases hbody⟩
      | some f =>
        have he : parse_resume_endpoint env now ptime world "file" (some f)
            text fresh uid og ov store
            = (if f.filename = "" then
                (⟨400, .detail "No file provided"⟩, store)
              else if f.content.length > 10000000 then
                (⟨413, .detail "File too large (max 10MB)"⟩, store)
              else if fileExtOr f.filename ""
                  ∉ ["pdf", "doc", "docx", "png", "jpg", "jpeg", "txt"] then
                (⟨400, .detail ("Unsupported file type: "
                  ++ fileExtOr f.filename ""
                  ++ ". Allowed: pdf, doc, docx, png, jpg, jpeg, txt")⟩, store)
              else respondWithResult env now ptime world f.content f.filename
                fresh uid og ov store) := rfl
        rw [he]
        by_cases hfn : f.filename = ""
        · rw [if_pos hfn]
          exact ⟨Or.inr (Or.inl rfl), fun e m hbody => by cases hbody⟩
        · rw [if_neg hfn]
          by_cases hsz : f.content.length > 10000000
          · rw [if_pos hsz]
            exact ⟨Or.inr (Or.inr rfl), fun e m hbody => by cases hbody⟩
          · rw [if_neg hsz]
            by_cases hext : fileExtOr f.filename ""
                ∉ ["pdf", "doc", "docx", "png", "jpg", "jpeg", "txt"]
            · rw [if_pos hext]
              exact ⟨Or.inr (Or.inl rfl), fun e m hbody => by cases hbody⟩
            · rw [if_neg hext]
              obtain ⟨h200, hfail⟩ := respondWithResult_spec env now ptime
                world f.content f.filename fresh uid og ov store
              exact ⟨Or.inl h200, fun e m hb => ⟨h200, hfail e m hb⟩⟩
    · by_cases htt : fileType = "text"
      · subst htt
        cases text with
        | none =>
          have he : parse_resume_endpoint env now ptime world "text" file none
              fresh uid og ov store
              = (⟨400, .detail "No text provided"⟩, store) := rfl
          rw [he]
          exact ⟨Or.inr (Or.inl rfl), fun e m hbody => by cases hbody⟩
        | some t =>
          have he : parse_resume_endpoint env now ptime world "text" file
              (some t) fresh uid og ov store
              = (if t = "" ∨ pyStrip t = "" then
                  (⟨400, .detail "No text provided"⟩, store)
                else respondWithResult env now ptime world (utf8Bytes t)
                  "resume.txt" fresh uid og ov store) := rfl
          rw [he]
          by_cases hemp : t = "" ∨ pyStrip t = ""
          · rw [if_pos hemp]
            exact ⟨Or.inr (Or.inl rfl), fun e m hbody => by cases hbody⟩
          · rw [if_neg hemp]
            obtain ⟨h200, hfail⟩ := respondWithResult_spec env now ptime world
              (utf8Bytes t) "resume.txt" fresh uid og ov store
            exact ⟨Or.inl h200, fun e m hb => ⟨h200, hfail e m hb⟩⟩
      · have he : parse_resume_endpoint env now ptime world fileType file text
            fresh uid og ov store
            = (⟨400, .detail "Invalid fileType. Must be 'file' or 'text'."⟩,
               store) := by
          unfold parse_resume_endpoint
          rw [if_neg hft, if_neg htt]
        rw [he]
        exact ⟨Or.inr (Or.inl rfl), fun e m hbody => by cases hbody⟩
  refine ⟨hmain.1, ?_, hmain.2⟩
  rcases hmain.1 with h | h | h <;> rw [h] <;> decide

/-- Witness for C2 (amended) at a concrete failing request. -/
theorem C2_failure_is_200_witness :
    ((parse_resume_endpoint envNone 10 1 failWorld "text" none
        (some "John Doe resume text") false "u1" "origin" true []).1.status = 200
      ∨ (parse_resume_endpoint envNone 10 1 failWorld "text" none
          (some "John Doe resume text") false "u1" "origin" true []).1.status = 400
      ∨ (parse_resume_endpoint envNone 10 1 failWorld "text" none
          (some "John Doe resume text") false "u1" "origin" true []).1.status = 413)
    ∧ (parse_resume_endpoint envNone 10 1 failWorld "text" none
        (some "John Doe resume text") false "u1" "origin" true []).1.status ≠ 500
    ∧ ∀ e m, (parse_resume_endpoint envNone 10 1 failWorld "text" none
        (some "John Doe resume text") false "u1" "origin" true []).1.body
          = .failed e m →
        (parse_resume_endpoint envNone 10 1 failWorld "text" none
          (some "John Doe resume text") false "u1" "origin" true []).1.status = 200
        ∧ e.success = false :=
  C2_failure_is_200 envNone 10 1 failWorld "text" none
    (some "John Doe resume text") false "u1" "origin" true []
